import Mathlib

/-!
Shallow embedding of the zdtun core (src/zdtun.c).

Conventions of the embedding:
- Machine integers are `Nat`. Fields of C type `u_int16_t` / `u_int32_t` are
  reduced modulo 2^16 / 2^32 at every write site, exactly where the C stores
  truncate; reads are not re-truncated, theorems carry range hypotheses
  where an arbitrary record is quantified.
- Network byte order is abstracted away: ports, addresses and sequence
  numbers are carried as plain numeric values, `ntohs`/`htons`/`ntohl`/`htonl`
  are the identity. The only place the source compares a port numerically
  is `conn->tuple.dst_port != ntohs(53)` in check_dns_purge, where both
  sides use the same representation, so the abstraction is sound.
- `INVALID_SOCKET` is `Option.none`; a live socket handle is `some n`.
- `fd_set` membership is tracked per connection (`in_all_fds`,
  `in_tcp_connecting`): every FD_SET/FD_CLR in the source operates on
  `conn->sock`, and the process-wide ICMP socket is outside the claims.
- The `union { tcp; icmp }` of `zdtun_conn` is flattened into one record:
  records are calloc-zeroed at creation and the source only reads `tcp.*`
  fields of non-TCP records where the aliased memory is still zero
  (`conn->tcp.pending` / `conn->tcp.fin_ack_sent` in close_conn), so the
  flattening is behaviour-preserving.
- Callbacks: `send_client` is assumed to succeed (its failure path calls
  close_conn re-entrantly and is outside every claim); `account_packet`,
  `on_socket_open` and `on_socket_close` are pure notifications and are
  not modelled; `on_connection_open` refusal is the `accept_conn`
  parameter of `zdtun_lookup`.
- Syscall outcomes (socket creation, connect, send, recv, SO_ERROR) are
  oracle parameters of the corresponding handler.
-/

/-- IP protocol number of ICMP (netinet/in.h). -/
def IPPROTO_ICMP : Nat := 1

/-- IP protocol number of TCP (netinet/in.h). -/
def IPPROTO_TCP : Nat := 6

/-- IP protocol number of UDP (netinet/in.h). -/
def IPPROTO_UDP : Nat := 17

/-- TCP header flag bits (net_headers.h). -/
def TH_FIN : Nat := 1

/-- TCP SYN flag bit. -/
def TH_SYN : Nat := 2

/-- TCP RST flag bit. -/
def TH_RST : Nat := 4

/-- TCP PUSH flag bit. -/
def TH_PUSH : Nat := 8

/-- TCP ACK flag bit. -/
def TH_ACK : Nat := 16

/-- ICMP echo request type (netinet/ip_icmp.h). -/
def ICMP_ECHO : Nat := 8

/-- ICMP echo reply type. -/
def ICMP_ECHOREPLY : Nat := 0

/-- Engine default TCP window (zdtun.c TCP_WINDOW_SIZE). -/
def TCP_WINDOW_SIZE : Nat := 64240

/-- Minimal TCP header length (zdtun.c MIN_TCP_HEADER_LEN). -/
def MIN_TCP_HEADER_LEN : Nat := 20

/-- UDP header length (zdtun.c UDP_HEADER_LEN). -/
def UDP_HEADER_LEN : Nat := 8

/-- Synthesized IPv4 header size (zdtun.h ZDTUN_IP_HEADER_SIZE). -/
def ZDTUN_IP_HEADER_SIZE : Nat := 20

/-- Idle timeout for ICMP connections, seconds. -/
def ICMP_TIMEOUT_SEC : Nat := 5

/-- Idle timeout for UDP connections, seconds. -/
def UDP_TIMEOUT_SEC : Nat := 15

/-- Idle timeout for TCP connections, seconds. -/
def TCP_TIMEOUT_SEC : Nat := 30

/-- Socket ceiling on the non-Windows build (zdtun.c MAX_NUM_SOCKETS). -/
def MAX_NUM_SOCKETS : Nat := 128

/-- Post-purge socket target on the non-Windows build. -/
def NUM_SOCKETS_AFTER_PURGE : Nat := 96

/-- DNS flags mask for the response bit (zdtun.c DNS_FLAGS_MASK). -/
def DNS_FLAGS_MASK : Nat := 0x8000

/-- DNS response flag value (zdtun.c DNS_TYPE_RESPONSE). -/
def DNS_TYPE_RESPONSE : Nat := 0x8000

/-- Size in bytes of `struct dns_packet` (packed: six u16 fields plus one u8). -/
def DNS_PACKET_SIZE : Nat := 13

/-- Truncation to a `u_int32_t` store. -/
def mod32 (n : Nat) : Nat := n % 4294967296

/-- Truncation to a `u_int16_t` store. -/
def mod16 (n : Nat) : Nat := n % 65536

/-- The `conn_status_t` enumeration of zdtun.c. -/
inductive conn_status_t where
  | CONN_STATUS_NEW
  | CONN_STATUS_CONNECTING
  | CONN_STATUS_CONNECTED
  | CONN_STATUS_CLOSED
deriving DecidableEq, Repr

open conn_status_t

/-- The 5-tuple identifying a flow (zdtun.h `zdtun_5tuple_t`, layout described
in the spec, section 3: for ICMP the source/destination port slots hold the
echo identifier and the echo sequence number). -/
structure zdtun_5tuple where
  ipproto : Nat
  src_ip : Nat
  dst_ip : Nat
  src_port : Nat
  dst_port : Nat
deriving DecidableEq, Repr

/-- `struct tcp_pending_data` of zdtun.c. `size` and `sofar` are u16; every
write site of the source keeps `sofar ≤ size` and `size = data.length`. -/
structure tcp_pending_data where
  data : List Nat
  size : Nat
  sofar : Nat
deriving DecidableEq, Repr

/-- `struct zdtun_conn` of zdtun.c with the per-protocol union flattened
(see the file header). `in_all_fds` / `in_tcp_connecting` record whether
`sock` is a member of the corresponding engine fd_set. -/
structure zdtun_conn where
  tuple : zdtun_5tuple
  tstamp : Nat
  sock : Option Nat
  status : conn_status_t
  dnat_ip : Nat
  dnat_port : Nat
  client_seq : Nat
  zdtun_seq : Nat
  window_size : Nat
  fin_ack_sent : Bool
  pending : Option tcp_pending_data
  echo_id : Nat
  echo_seq : Nat
  in_all_fds : Bool
  in_tcp_connecting : Bool
deriving DecidableEq, Repr

/-- The fields of `struct zdtun_t` the claims touch. The fd_sets live in the
per-connection booleans, the callback table and scratch buffer are handled
as described in the file header. -/
structure zdtun where
  max_window_size : Nat
  num_open_socks : Nat
  num_active_connections : Nat
  num_icmp_opened : Nat
  num_tcp_opened : Nat
  num_udp_opened : Nat
  conn_table : List zdtun_conn
deriving DecidableEq, Repr

/-- Synthesized IPv4 header (`struct iphdr` fields written by the engine). -/
structure iphdr where
  version : Nat
  ihl : Nat
  tos : Nat
  tot_len : Nat
  ident : Nat
  frag_off : Nat
  ttl : Nat
  protocol : Nat
  check : Nat
  saddr : Nat
  daddr : Nat
deriving DecidableEq, Repr

/-- Synthesized TCP header (`struct tcphdr` fields written by the engine). -/
structure tcphdr where
  th_sport : Nat
  th_dport : Nat
  th_seq : Nat
  th_ack : Nat
  th_off : Nat
  th_flags : Nat
  th_win : Nat
  th_sum : Nat
deriving DecidableEq, Repr

/-- Synthesized UDP header (`struct udphdr` fields written by the engine). -/
structure udphdr where
  uh_sport : Nat
  uh_dport : Nat
  uh_ulen : Nat
  uh_sum : Nat
deriving DecidableEq, Repr

/-- The L4 part of a packet handed to the `send_client` callback. -/
inductive l4_out where
  | tcp (th : tcphdr) (payload : List Nat)
  | udp (uh : udphdr) (payload_len : Nat)
  | icmp (icmp_len : Nat)
deriving DecidableEq, Repr

/-- One packet synthesized into the scratch buffer and emitted to the client. -/
structure sent_pkt where
  ip : iphdr
  l4 : l4_out
deriving DecidableEq, Repr

/-- One fold step of the one's-complement accumulator. -/
def csum_fold1 (s : Nat) : Nat := s % 65536 + s / 65536

/-- Carry folding for the one's-complement sum (three folds suffice for every
sum the engine feeds in). -/
def csum_fold (s : Nat) : Nat := csum_fold1 (csum_fold1 (csum_fold1 s))

/-- The 16-bit words of an IPv4 header, checksum field included. -/
def iphdr_words (h : iphdr) : List Nat :=
  [h.version * 4096 + h.ihl * 256 + h.tos, h.tot_len, h.ident, h.frag_off,
   h.ttl * 256 + h.protocol, h.check,
   h.saddr / 65536, h.saddr % 65536, h.daddr / 65536, h.daddr % 65536]

/-- Modelled from the spec: `ip_checksum` lives in utils.c, which is outside
src/. The spec (sections 4.B and 9) describes it as the RFC 1071
one's-complement checksum over the header bytes. -/
def ip_checksum (h : iphdr) : Nat := 65535 - csum_fold (iphdr_words h).sum

/-- The 16-bit words of a TCP header. -/
def tcphdr_words (t : tcphdr) : List Nat :=
  [t.th_sport, t.th_dport, t.th_seq / 65536, t.th_seq % 65536,
   t.th_ack / 65536, t.th_ack % 65536, t.th_off * 4096 + t.th_flags,
   t.th_win, t.th_sum, 0]

/-- Big-endian pairing of payload bytes into 16-bit words, padding odd tails. -/
def bytes_to_words : List Nat → List Nat
  | [] => []
  | [b] => [b * 256]
  | b1 :: b2 :: rest => (b1 * 256 + b2) :: bytes_to_words rest

/-- Modelled from the spec: `tcp_checksum` lives in utils.c, outside src/.
One's-complement checksum over the TCP pseudo-header (final src/dst
addresses, protocol, L4 total length), the header and the payload. -/
def tcp_checksum (th : tcphdr) (payload : List Nat) (l3_len saddr daddr : Nat) : Nat :=
  let pseudo := [saddr / 65536, saddr % 65536, daddr / 65536, daddr % 65536,
                 IPPROTO_TCP + l3_len]
  65535 - csum_fold (pseudo ++ tcphdr_words th ++ bytes_to_words payload).sum

/-- `build_ip_header_raw` of zdtun.c: memset to zero, then version 4, IHL 5,
don't-fragment, TTL 64, the given total length, protocol and addresses.
The checksum field is left zero; callers compute it last. `tot_len` is a
`u_int16_t` parameter, hence the truncation at entry. -/
def build_ip_header_raw (tot_len l3_proto srcip dstip : Nat) : iphdr :=
  { version := 4, ihl := 5, tos := 0, tot_len := mod16 tot_len, ident := 0,
    frag_off := 0x4000, ttl := 64, protocol := l3_proto, check := 0,
    saddr := srcip, daddr := dstip }

/-- `build_tcp_ip_header` of zdtun.c: TCP header with the client's ports
swapped, the engine's sequence/ack numbers, data offset 5, the engine's max
window, then the IP header via the `build_ip_header` macro (source and
destination swapped relative to the client packet), and both checksums
computed last with the checksum fields zeroed first. -/
def build_tcp_ip_header (tun : zdtun) (conn : zdtun_conn) (flags : Nat)
    (l4_len : Nat) (payload : List Nat) : iphdr × tcphdr :=
  let l3_len := mod16 (l4_len + MIN_TCP_HEADER_LEN)
  let th0 : tcphdr :=
    { th_sport := conn.tuple.dst_port
      th_dport := conn.tuple.src_port
      th_seq := conn.zdtun_seq
      th_ack := if flags &&& TH_ACK ≠ 0 then conn.client_seq else 0
      th_off := 5
      th_flags := flags
      th_win := mod16 tun.max_window_size
      th_sum := 0 }
  let ip0 := build_ip_header_raw (l3_len + ZDTUN_IP_HEADER_SIZE) IPPROTO_TCP
               conn.tuple.dst_ip conn.tuple.src_ip
  let th := { th0 with th_sum := tcp_checksum th0 payload l3_len ip0.saddr ip0.daddr }
  let ip := { ip0 with check := ip_checksum ip0 }
  (ip, th)

/-- The header fields of a raw IPv4 buffer as the parser reads them. The
parser only inspects header fields and lengths, so the byte buffer is
abstracted to this record; the L4 fields are only meaningful for the
protocol selected by `protocol`. -/
structure raw_pkt where
  pkt_len : Nat
  version : Nat
  ihl : Nat
  protocol : Nat
  saddr : Nat
  daddr : Nat
  th_sport : Nat
  th_dport : Nat
  th_seq : Nat
  th_ack : Nat
  th_off : Nat
  th_flags : Nat
  th_win : Nat
  uh_sport : Nat
  uh_dport : Nat
  icmp_type : Nat
  echo_id : Nat
  echo_seq : Nat
deriving DecidableEq, Repr

/-- The typed view `zdtun_pkt_t` produced by the parser (the fields the
claims use; header pointers are represented by the lengths). -/
structure zdtun_pkt where
  tuple : zdtun_5tuple
  pkt_len : Nat
  ip_hdr_len : Nat
  l4_hdr_len : Nat
  l7_len : Nat
  th_seq : Nat
  th_ack : Nat
  th_flags : Nat
  th_win : Nat
deriving DecidableEq, Repr

/-- `zdtun_parse_pkt` of zdtun.c: rejects non-IPv4, lengths shorter than the
advertised IP header, TCP shorter than 20 bytes or than the declared data
offset, UDP shorter than 8 bytes, ICMP shorter than its header, non-echo
ICMP (code -2) and unknown L4 protocols (code -3); every other rejection
returns -1. On success it fills the typed view. -/
def zdtun_parse_pkt (p : raw_pkt) : Except Int zdtun_pkt :=
  if p.version ≠ 4 then .error (-1)
  else
    let ip_hdr_len := p.ihl * 4
    if p.pkt_len < ip_hdr_len then .error (-1)
    else if p.protocol = IPPROTO_TCP then
      if p.pkt_len < ip_hdr_len + MIN_TCP_HEADER_LEN then .error (-1)
      else
        let tcp_header_len := p.th_off * 4
        if p.pkt_len < ip_hdr_len + tcp_header_len then .error (-1)
        else .ok
          { tuple := { ipproto := p.protocol, src_ip := p.saddr, dst_ip := p.daddr,
                       src_port := p.th_sport, dst_port := p.th_dport }
            pkt_len := p.pkt_len
            ip_hdr_len := ip_hdr_len
            l4_hdr_len := tcp_header_len
            l7_len := p.pkt_len - ip_hdr_len - tcp_header_len
            th_seq := p.th_seq, th_ack := p.th_ack
            th_flags := p.th_flags, th_win := p.th_win }
    else if p.protocol = IPPROTO_UDP then
      if p.pkt_len < ip_hdr_len + UDP_HEADER_LEN then .error (-1)
      else .ok
        { tuple := { ipproto := p.protocol, src_ip := p.saddr, dst_ip := p.daddr,
                     src_port := p.uh_sport, dst_port := p.uh_dport }
          pkt_len := p.pkt_len
          ip_hdr_len := ip_hdr_len
          l4_hdr_len := UDP_HEADER_LEN
          l7_len := p.pkt_len - ip_hdr_len - UDP_HEADER_LEN
          th_seq := 0, th_ack := 0, th_flags := 0, th_win := 0 }
    else if p.protocol = IPPROTO_ICMP then
      if p.pkt_len < ip_hdr_len + 8 then .error (-1)
      else if p.icmp_type ≠ ICMP_ECHO ∧ p.icmp_type ≠ ICMP_ECHOREPLY then .error (-2)
      else .ok
        { tuple := { ipproto := p.protocol, src_ip := p.saddr, dst_ip := p.daddr,
                     src_port := p.echo_id, dst_port := p.echo_seq }
          pkt_len := p.pkt_len
          ip_hdr_len := ip_hdr_len
          l4_hdr_len := 8
          l7_len := p.pkt_len - ip_hdr_len - 8
          th_seq := 0, th_ack := 0, th_flags := 0, th_win := 0 }
    else .error (-3)

/-- Result of one engine operation: the engine fields, the connection, the
packets emitted to the client (in emission order) and the C return value. -/
structure step_out where
  tun : zdtun
  conn : zdtun_conn
  pkts : List sent_pkt
  rv : Int
deriving DecidableEq, Repr

/-- `finalize_zdtun_sock` of zdtun.c: close the OS socket, clear it from both
fd_sets, decrement the open-socket counter and store the invalid sentinel. -/
def finalize_zdtun_sock (tun : zdtun) (conn : zdtun_conn) : zdtun × zdtun_conn :=
  ({ tun with num_open_socks := tun.num_open_socks - 1 },
   { conn with sock := none, in_all_fds := false, in_tcp_connecting := false })

/-- `close_conn` of zdtun.c: no-op on an already CLOSED record; otherwise
release the socket if still open, free any pending buffer, emit RST+ACK when
the connection is TCP and `fin_ack_sent` is false, fire the close callback,
and mark the record CLOSED (destruction is deferred to the purge). -/
def close_conn (tun : zdtun) (conn : zdtun_conn) : zdtun × zdtun_conn × List sent_pkt :=
  if conn.status = CONN_STATUS_CLOSED then (tun, conn, [])
  else
    let tc := if conn.sock ≠ none then finalize_zdtun_sock tun conn else (tun, conn)
    let tun := tc.1
    let conn := { tc.2 with pending := none }
    let pkts :=
      if conn.tuple.ipproto = IPPROTO_TCP ∧ conn.fin_ack_sent = false then
        let ipth := build_tcp_ip_header tun conn (TH_RST ||| TH_ACK) 0 []
        [{ ip := ipth.1, l4 := l4_out.tcp ipth.2 [] }]
      else []
    (tun, { conn with status := CONN_STATUS_CLOSED }, pkts)

/-- `tcp_socket_syn` of zdtun.c: leave the connecting set, mark CONNECTED,
emit SYN+ACK with the current `zdtun_seq`, then advance `zdtun_seq` by 1. -/
def tcp_socket_syn (tun : zdtun) (conn : zdtun_conn) : zdtun × zdtun_conn × List sent_pkt :=
  let conn := { conn with in_tcp_connecting := false, status := CONN_STATUS_CONNECTED }
  let ipth := build_tcp_ip_header tun conn (TH_SYN ||| TH_ACK) 0 []
  let conn := { conn with zdtun_seq := mod32 (conn.zdtun_seq + 1) }
  (tun, conn, [{ ip := ipth.1, l4 := l4_out.tcp ipth.2 [] }])

/-- `tcp_socket_fin_ack` of zdtun.c: emit FIN+ACK and advance `zdtun_seq`. -/
def tcp_socket_fin_ack (tun : zdtun) (conn : zdtun_conn) : zdtun × zdtun_conn × List sent_pkt :=
  let ipth := build_tcp_ip_header tun conn (TH_FIN ||| TH_ACK) 0 []
  let conn := { conn with zdtun_seq := mod32 (conn.zdtun_seq + 1) }
  (tun, conn, [{ ip := ipth.1, l4 := l4_out.tcp ipth.2 [] }])

/-- `process_pending_tcp_packets` of zdtun.c: with a live socket, a pending
buffer and a non-zero window, send `to_send = min(window, remaining)` bytes
as PUSH+ACK, advance `zdtun_seq` by `to_send`, shrink the window by
`to_send`; when the buffer is fully drained free it and re-register the
socket for readability, else record the progress in `sofar`. -/
def process_pending_tcp_packets (tun : zdtun) (conn : zdtun_conn) : zdtun_conn × List sent_pkt :=
  match conn.pending with
  | none => (conn, [])
  | some pending =>
    if conn.window_size = 0 ∨ conn.sock = none then (conn, [])
    else
      let remaining := pending.size - pending.sofar
      let to_send := min conn.window_size remaining
      let payload := (pending.data.drop pending.sofar).take to_send
      let ipth := build_tcp_ip_header tun conn (TH_PUSH ||| TH_ACK) to_send payload
      let conn := { conn with
        zdtun_seq := mod32 (conn.zdtun_seq + to_send),
        window_size := conn.window_size - to_send }
      if remaining = to_send then
        ({ conn with pending := none, in_all_fds := true },
         [{ ip := ipth.1, l4 := l4_out.tcp ipth.2 payload }])
      else
        ({ conn with pending := some { pending with sofar := pending.sofar + to_send } },
         [{ ip := ipth.1, l4 := l4_out.tcp ipth.2 payload }])

/-- Outcome of the non-blocking `connect` call in the TCP NEW path. -/
inductive connect_result where
  | sync_ok
  | in_progress
  | conn_err
deriving DecidableEq, Repr

/-- The ACK sub-step of `handle_tcp_fwd` (zdtun.c lines 694-708): recompute
the remaining window from the client's advertised window and the in-flight
bytes (`zdtun_seq - ack`, computed with the source's explicit wrap branch),
then attempt to drain pending server data. The subtraction is the C
`int - uint32` converted to `uint32` and stored into a `u_int16_t`. -/
def tcp_fwd_ack_step (tun : zdtun) (pkt : zdtun_pkt) (conn : zdtun_conn) :
    zdtun_conn × List sent_pkt :=
  if pkt.th_flags &&& TH_ACK ≠ 0 then
    let ack_num := pkt.th_ack
    let in_flight :=
      if conn.zdtun_seq ≥ ack_num then conn.zdtun_seq - ack_num
      else 0xFFFFFFFF - ack_num + conn.zdtun_seq + 1
    let conn := { conn with
      window_size :=
        mod16 (mod32 (min pkt.th_win tun.max_window_size + 4294967296 - in_flight)) }
    process_pending_tcp_packets tun conn
  else (conn, [])

/-- The payload sub-step of `handle_tcp_fwd` (zdtun.c lines 710-726): send
the client payload on the socket; on success, unless `no_ack`, advance
`client_seq` by the payload length and emit a bare ACK. -/
def tcp_fwd_payload_step (tun : zdtun) (pkt : zdtun_pkt) (conn : zdtun_conn)
    (no_ack : Bool) (send_ok : Bool) : zdtun_conn × List sent_pkt × Int :=
  if pkt.l7_len > 0 then
    if send_ok = false then (conn, [], -1)
    else if no_ack = false then
      let conn := { conn with client_seq := mod32 (conn.client_seq + pkt.l7_len) }
      let ipth := build_tcp_ip_header tun conn TH_ACK 0 []
      (conn, [{ ip := ipth.1, l4 := l4_out.tcp ipth.2 [] }], 0)
    else (conn, [], 0)
  else (conn, [], 0)

/-- `handle_tcp_fwd` of zdtun.c. CONNECTING packets are dropped; a NEW record
opens a non-blocking stream socket, connects (outcome `cres`), seeds
`client_seq = seq + 1` and `zdtun_seq = 0x77EB77EB`, registers the socket and
either finishes the handshake synchronously (`tcp_socket_syn`) or parks the
record in CONNECTING. On an established record: RST closes; FIN+ACK advances
`client_seq` by `l7_len + 1` and acks; a sentinel socket discards; otherwise
the ACK sub-step then the payload sub-step run. -/
def handle_tcp_fwd (tun : zdtun) (pkt : zdtun_pkt) (conn : zdtun_conn) (no_ack : Bool)
    (sock_ok : Bool) (new_sock : Nat) (cres : connect_result) (send_ok : Bool) : step_out :=
  if conn.status = CONN_STATUS_CONNECTING then ⟨tun, conn, [], 0⟩
  else if conn.status = CONN_STATUS_NEW then
    if sock_ok = false then ⟨tun, conn, [], -1⟩
    else
      let tun := { tun with num_tcp_opened := tun.num_tcp_opened + 1 }
      if cres = connect_result.conn_err then ⟨tun, conn, [], -1⟩
      else
        let conn := { conn with
          in_all_fds := true,
          sock := some new_sock,
          client_seq := mod32 (pkt.th_seq + 1),
          zdtun_seq := 0x77EB77EB }
        let tun := { tun with num_open_socks := tun.num_open_socks + 1 }
        if cres = connect_result.sync_ok then
          let r := tcp_socket_syn tun conn
          ⟨r.1, r.2.1, r.2.2, 0⟩
        else
          ⟨tun, { conn with status := CONN_STATUS_CONNECTING, in_tcp_connecting := true }, [], 0⟩
  else
    if pkt.th_flags &&& TH_RST ≠ 0 then
      let r := close_conn tun conn
      ⟨r.1, r.2.1, r.2.2, 0⟩
    else if pkt.th_flags &&& (TH_FIN ||| TH_ACK) = TH_FIN ||| TH_ACK then
      let conn := { conn with client_seq := mod32 (conn.client_seq + pkt.l7_len + 1) }
      let ipth := build_tcp_ip_header tun conn TH_ACK 0 []
      ⟨tun, conn, [{ ip := ipth.1, l4 := l4_out.tcp ipth.2 [] }], 0⟩
    else if conn.sock = none then ⟨tun, conn, [], 0⟩
    else
      let ra := tcp_fwd_ack_step tun pkt conn
      let rp := tcp_fwd_payload_step tun pkt ra.1 no_ack send_ok
      ⟨tun, rp.1, ra.2 ++ rp.2.1, rp.2.2⟩

/-- `handle_udp_fwd` of zdtun.c: first packet opens a datagram socket,
registers it readable and marks CONNECTED; every packet is sent to the
(DNAT-overridden) destination. Nothing is emitted to the client. -/
def handle_udp_fwd (tun : zdtun) (conn : zdtun_conn)
    (sock_ok : Bool) (new_sock : Nat) (send_ok : Bool) : step_out :=
  if conn.status = CONN_STATUS_NEW then
    if sock_ok = false then ⟨tun, conn, [], -1⟩
    else
      let tun := { tun with
        num_open_socks := tun.num_open_socks + 1,
        num_udp_opened := tun.num_udp_opened + 1 }
      let conn := { conn with
        sock := some new_sock, in_all_fds := true, status := CONN_STATUS_CONNECTED }
      if send_ok = false then ⟨tun, conn, [], -1⟩ else ⟨tun, conn, [], 0⟩
  else
    if send_ok = false then ⟨tun, conn, [], -1⟩ else ⟨tun, conn, [], 0⟩

/-- `handle_icmp_fwd` of zdtun.c: first packet marks CONNECTED (the shared
raw socket is engine-wide); the echo body is sent to the destination. -/
def handle_icmp_fwd (tun : zdtun) (conn : zdtun_conn) (send_ok : Bool) : step_out :=
  let tc :=
    if conn.status = CONN_STATUS_NEW then
      ({ tun with num_icmp_opened := tun.num_icmp_opened + 1 },
       { conn with status := CONN_STATUS_CONNECTED })
    else (tun, conn)
  if send_ok = false then ⟨tc.1, tc.2, [], -1⟩ else ⟨tc.1, tc.2, [], 0⟩

/-- The syscall oracle of one forwarding call. -/
structure fwd_env where
  sock_ok : Bool
  new_sock : Nat
  cres : connect_result
  send_ok : Bool
  now : Nat
deriving DecidableEq, Repr

/-- `zdtun_forward_full` of zdtun.c: refuse CLOSED records, dispatch by the
packet's protocol (unknown protocols return -2), and refresh the record's
timestamp on success. -/
def zdtun_forward_full (tun : zdtun) (pkt : zdtun_pkt) (conn : zdtun_conn)
    (no_ack : Bool) (env : fwd_env) : step_out :=
  if conn.status = CONN_STATUS_CLOSED then ⟨tun, conn, [], 0⟩
  else
    let out :=
      if pkt.tuple.ipproto = IPPROTO_TCP then
        handle_tcp_fwd tun pkt conn no_ack env.sock_ok env.new_sock env.cres env.send_ok
      else if pkt.tuple.ipproto = IPPROTO_UDP then
        handle_udp_fwd tun conn env.sock_ok env.new_sock env.send_ok
      else if pkt.tuple.ipproto = IPPROTO_ICMP then
        handle_icmp_fwd tun conn env.send_ok
      else ⟨tun, conn, [], -2⟩
    if out.rv = 0 then { out with conn := { out.conn with tstamp := env.now } } else out

/-- Outcome of the `recv` call in `handle_tcp_reply`. `err_soft` stands for
ECONNREFUSED, ECONNRESET and ECONNABORTED; a zero-length read is `eof`; a
positive read carries the bytes (never empty). -/
inductive tcp_recv_result where
  | err_soft
  | err_other
  | eof
  | bytes (data : List Nat)
deriving DecidableEq, Repr

/-- `handle_tcp_reply` of zdtun.c: refresh the timestamp; socket errors close
the connection (soft errors report success); EOF emits FIN+ACK once, sets
`fin_ack_sent` and releases the socket while keeping the record; data is
queued (deregistering the socket, then attempting an immediate drain) when
pending data exists or the window is smaller than the read, else emitted in
place as PUSH+ACK, advancing `zdtun_seq` and shrinking the window. -/
def handle_tcp_reply (tun : zdtun) (conn : zdtun_conn) (r : tcp_recv_result)
    (now : Nat) : step_out :=
  let conn := { conn with tstamp := now }
  match r with
  | tcp_recv_result.err_soft =>
    let c := close_conn tun conn
    ⟨c.1, c.2.1, c.2.2, 0⟩
  | tcp_recv_result.err_other =>
    let c := close_conn tun conn
    ⟨c.1, c.2.1, c.2.2, -1⟩
  | tcp_recv_result.eof =>
    let r1 :=
      if conn.fin_ack_sent = false then
        let f := tcp_socket_fin_ack tun conn
        (f.1, { f.2.1 with fin_ack_sent := true }, f.2.2)
      else (tun, conn, [])
    let fz := finalize_zdtun_sock r1.1 r1.2.1
    ⟨fz.1, fz.2, r1.2.2, 0⟩
  | tcp_recv_result.bytes data =>
    let l4_len := data.length
    if conn.pending ≠ none ∨ conn.window_size < l4_len then
      let conn := { conn with
        pending := some { data := data, size := l4_len, sofar := 0 },
        in_all_fds := false }
      let pp := process_pending_tcp_packets tun conn
      ⟨tun, pp.1, pp.2, 0⟩
    else
      let ipth := build_tcp_ip_header tun conn (TH_PUSH ||| TH_ACK) l4_len data
      let conn := { conn with
        zdtun_seq := mod32 (conn.zdtun_seq + l4_len),
        window_size := conn.window_size - l4_len }
      ⟨tun, conn, [{ ip := ipth.1, l4 := l4_out.tcp ipth.2 data }], 0⟩

/-- `check_dns_purge` of zdtun.c: on a connection whose destination port is
53 with a reply at least `sizeof(struct dns_packet)` bytes long whose DNS
flags carry the response bit, close the connection eagerly (return 0);
otherwise leave it alone (return 1). `dns_flags` is the 16-bit flags field
the source loads from offset 2 of the payload. -/
def check_dns_purge (tun : zdtun) (conn : zdtun_conn) (dns_flags l4_len : Nat) :
    zdtun × zdtun_conn × List sent_pkt × Int :=
  if l4_len < DNS_PACKET_SIZE ∨ conn.tuple.dst_port ≠ 53 then (tun, conn, [], 1)
  else if dns_flags &&& DNS_FLAGS_MASK = DNS_TYPE_RESPONSE then
    let c := close_conn tun conn
    (c.1, c.2.1, c.2.2, 0)
  else (tun, conn, [], 1)

/-- Outcome of the `recv` call in `handle_udp_reply`: an error, or a payload
of `l4_len` bytes whose 16-bit DNS flags field (offset 2) reads `dns_flags`. -/
inductive udp_recv_result where
  | err
  | bytes (l4_len : Nat) (dns_flags : Nat)
deriving DecidableEq, Repr

/-- `handle_udp_reply` of zdtun.c: a recv error closes the connection;
otherwise rebuild the UDP header with the ports swapped, length filled in
and checksum zero, wrap it in an IP header with the addresses swapped
(checksum computed last over the zeroed header), send it to the client,
refresh the timestamp and run the DNS eager-purge check. -/
def handle_udp_reply (tun : zdtun) (conn : zdtun_conn) (r : udp_recv_result)
    (now : Nat) : step_out :=
  match r with
  | udp_recv_result.err =>
    let c := close_conn tun conn
    ⟨c.1, c.2.1, c.2.2, -1⟩
  | udp_recv_result.bytes l4_len dns_flags =>
    let l3_len := l4_len + UDP_HEADER_LEN
    let uh : udphdr :=
      { uh_sport := conn.tuple.dst_port, uh_dport := conn.tuple.src_port,
        uh_ulen := mod16 l3_len, uh_sum := 0 }
    let ip0 := build_ip_header_raw (l3_len + ZDTUN_IP_HEADER_SIZE) IPPROTO_UDP
                 conn.tuple.dst_ip conn.tuple.src_ip
    let ip := { ip0 with check := ip_checksum ip0 }
    let reply : sent_pkt := { ip := ip, l4 := l4_out.udp uh l4_len }
    let conn := { conn with tstamp := now }
    let d := check_dns_purge tun conn dns_flags l4_len
    ⟨d.1, d.2.1, reply :: d.2.2.1, 0⟩

/-- The reply path of `handle_icmp_reply` for the matched connection:
refresh the timestamp, clear the stored echo sequence, rebuild the IP
header with the addresses swapped and send the `l3_len` bytes back. -/
def handle_icmp_reply_conn (tun : zdtun) (conn : zdtun_conn) (l3_len : Nat)
    (now : Nat) : step_out :=
  let conn := { conn with tstamp := now, echo_seq := 0 }
  let ip0 := build_ip_header_raw l3_len IPPROTO_ICMP conn.tuple.dst_ip conn.tuple.src_ip
  let ip := { ip0 with check := ip_checksum ip0 }
  ⟨tun, conn, [{ ip := ip, l4 := l4_out.icmp (l3_len - ZDTUN_IP_HEADER_SIZE) }], 0⟩

/-- Outcome of the `getsockopt(SO_ERROR)` query in the async-connect path. -/
inductive so_error_result where
  | getsockopt_err
  | so_ok
  | so_failed
deriving DecidableEq, Repr

/-- `handle_tcp_connect_async` of zdtun.c: SO_ERROR zero completes the
handshake (`tcp_socket_syn`) and refreshes the timestamp; anything else
closes the connection and reports failure. -/
def handle_tcp_connect_async (tun : zdtun) (conn : zdtun_conn)
    (r : so_error_result) (now : Nat) : step_out :=
  match r with
  | so_error_result.getsockopt_err =>
    let c := close_conn tun conn
    ⟨c.1, c.2.1, c.2.2, -1⟩
  | so_error_result.so_ok =>
    let s := tcp_socket_syn tun conn
    ⟨s.1, { s.2.1 with tstamp := now }, s.2.2, 0⟩
  | so_error_result.so_failed =>
    let c := close_conn tun conn
    ⟨c.1, c.2.1, c.2.2, -1⟩

/-- A freshly allocated connection record (`safe_alloc` zeroes the struct,
then zdtun_lookup stores the sentinel socket, the tuple and the time). -/
def new_zdtun_conn (tuple : zdtun_5tuple) (now : Nat) : zdtun_conn :=
  { tuple := tuple, tstamp := now, sock := none, status := CONN_STATUS_NEW,
    dnat_ip := 0, dnat_port := 0, client_seq := 0, zdtun_seq := 0,
    window_size := 0, fin_ack_sent := false, pending := none,
    echo_id := 0, echo_seq := 0, in_all_fds := false, in_tcp_connecting := false }

/-- The idle budget `zdtun_purge_expired` selects per protocol; the switch
leaves `timeout` at 0 for any protocol outside TCP/UDP/ICMP. -/
def conn_idle_timeout (ipproto : Nat) : Nat :=
  if ipproto = IPPROTO_TCP then TCP_TIMEOUT_SEC
  else if ipproto = IPPROTO_UDP then UDP_TIMEOUT_SEC
  else if ipproto = IPPROTO_ICMP then ICMP_TIMEOUT_SEC
  else 0

/-- The idleness-pass condition of `zdtun_purge_expired`: destroy records in
CLOSED state or with `now >= timeout + tstamp`. -/
def purge_expired_pred (now : Nat) (c : zdtun_conn) : Bool :=
  decide (c.status = CONN_STATUS_CLOSED ∨ now ≥ conn_idle_timeout c.tuple.ipproto + c.tstamp)

/-- The open-socket decrement `zdtun_destroy_conn` causes through
`close_conn` / `finalize_zdtun_sock` for one destroyed record. -/
def destroy_socks_delta (c : zdtun_conn) : Nat :=
  if c.status ≠ CONN_STATUS_CLOSED ∧ c.sock ≠ none then 1 else 0

/-- Total open-socket decrement over a list of destroyed records. -/
def destroy_socks_total (l : List zdtun_conn) : Nat :=
  (l.map destroy_socks_delta).sum

/-- `zdtun_purge_expired` of zdtun.c: the idleness pass destroys every
record in CLOSED state or beyond its protocol's idle budget; if the open
socket count still exceeds the ceiling, the overload pass sorts the
survivors by ascending timestamp and destroys the oldest until the
post-purge target is reached. (RSTs emitted while destroying TCP records
are dropped here; no claim inspects them.) -/
def zdtun_purge_expired (tun : zdtun) (now : Nat) : zdtun :=
  let destroyed := tun.conn_table.filter (purge_expired_pred now)
  let kept := tun.conn_table.filter (fun c => ¬ purge_expired_pred now c)
  let tun := { tun with
    conn_table := kept,
    num_active_connections := tun.num_active_connections - destroyed.length,
    num_open_socks := tun.num_open_socks - destroy_socks_total destroyed }
  if tun.num_open_socks > MAX_NUM_SOCKETS then
    let to_purge := tun.num_open_socks - NUM_SOCKETS_AFTER_PURGE
    let sorted := tun.conn_table.mergeSort (fun a b => a.tstamp ≤ b.tstamp)
    let victims := sorted.take to_purge
    { tun with
      conn_table := sorted.drop to_purge,
      num_active_connections := tun.num_active_connections - victims.length,
      num_open_socks := tun.num_open_socks - destroy_socks_total victims }
  else tun

/-- `zdtun_lookup` of zdtun.c: hash lookup by tuple; when absent and
creation is allowed, an eager purge runs if the socket ceiling is met, then
a zeroed record with the sentinel socket is inserted unless the
`on_connection_open` callback (`accept_conn`) refuses it. -/
def zdtun_lookup (tun : zdtun) (tuple : zdtun_5tuple) (create : Bool)
    (now : Nat) (accept_conn : Bool) : zdtun × Option zdtun_conn :=
  match tun.conn_table.find? (fun c => c.tuple == tuple) with
  | some c => (tun, some c)
  | none =>
    if create then
      let tun :=
        if tun.num_open_socks ≥ MAX_NUM_SOCKETS then zdtun_purge_expired tun now else tun
      let conn := new_zdtun_conn tuple now
      if accept_conn = false then (tun, none)
      else ({ tun with
        conn_table := conn :: tun.conn_table,
        num_active_connections := tun.num_active_connections + 1 }, some conn)
    else (tun, none)

/-- The `is_tcp_established` test of `zdtun_easy_forward`: a TCP packet that
is not an initial SYN (SYN flag clear, or ACK flag set). -/
def is_tcp_established_pkt (pkt : zdtun_pkt) : Bool :=
  decide (pkt.tuple.ipproto = IPPROTO_TCP ∧
    (pkt.th_flags &&& TH_SYN = 0 ∨ pkt.th_flags &&& TH_ACK ≠ 0))

/-- `zdtun_easy_forward` of zdtun.c: parse, look up (creation allowed only
for packets that are not established TCP), forward; on a forwarding error
destroy the connection. The returned table carries the in-place mutation of
the forwarded record. -/
def zdtun_easy_forward (tun : zdtun) (raw : raw_pkt) (env : fwd_env)
    (accept_conn : Bool) : zdtun × Option zdtun_conn :=
  match zdtun_parse_pkt raw with
  | .error _ => (tun, none)
  | .ok pkt =>
    let lr := zdtun_lookup tun pkt.tuple (! is_tcp_established_pkt pkt) env.now accept_conn
    match lr.2 with
    | none => (lr.1, none)
    | some conn =>
      let out := zdtun_forward_full lr.1 pkt conn false env
      if out.rv ≠ 0 then
        let c := close_conn out.tun out.conn
        ({ c.1 with
          num_active_connections := c.1.num_active_connections - 1,
          conn_table := c.1.conn_table.filter (fun x => ¬ (x.tuple == pkt.tuple)) }, none)
      else
        ({ out.tun with
          conn_table := out.tun.conn_table.map
            (fun x => if x.tuple == pkt.tuple then out.conn else x) }, some out.conn)

/-- The inductive per-connection invariant: a CLOSED record has released its
socket; a sentinel socket is in no fd_set; a connection with pending data is
not registered for readability; a NEW record has neither socket nor pending
data. -/
def conn_inv (c : zdtun_conn) : Prop :=
  (c.status = CONN_STATUS_CLOSED → c.sock = none) ∧
  (c.sock = none → c.in_all_fds = false ∧ c.in_tcp_connecting = false) ∧
  (c.pending ≠ none → c.in_all_fds = false) ∧
  (c.status = CONN_STATUS_NEW → c.sock = none ∧ c.pending = none)

lemma conn_inv_new (tuple : zdtun_5tuple) (now : Nat) :
    conn_inv (new_zdtun_conn tuple now) := by
  simp [conn_inv, new_zdtun_conn]

lemma conn_inv_close_conn (t : zdtun) (c : zdtun_conn) (h : conn_inv c) :
    conn_inv (close_conn t c).2.1 := by
  obtain ⟨h1, h2, h3, h4⟩ := h
  unfold close_conn finalize_zdtun_sock
  split
  · exact ⟨h1, h2, h3, h4⟩
  · split <;> simp_all [conn_inv]

lemma conn_inv_tcp_socket_syn (t : zdtun) (c : zdtun_conn) (h : conn_inv c) :
    conn_inv (tcp_socket_syn t c).2.1 := by
  obtain ⟨h1, h2, h3, h4⟩ := h
  simp_all [tcp_socket_syn, conn_inv]

lemma conn_inv_process_pending (t : zdtun) (c : zdtun_conn) (h : conn_inv c) :
    conn_inv (process_pending_tcp_packets t c).1 := by
  obtain ⟨h1, h2, h3, h4⟩ := h
  unfold process_pending_tcp_packets
  split
  · exact ⟨h1, h2, h3, h4⟩
  · split
    · exact ⟨h1, h2, h3, h4⟩
    · dsimp only
      split <;> simp_all [conn_inv]

lemma conn_inv_tcp_socket_fin_ack (t : zdtun) (c : zdtun_conn) (h : conn_inv c) :
    conn_inv (tcp_socket_fin_ack t c).2.1 := by
  obtain ⟨h1, h2, h3, h4⟩ := h
  simp_all [tcp_socket_fin_ack, conn_inv]

lemma conn_inv_tcp_fwd_ack_step (t : zdtun) (p : zdtun_pkt) (c : zdtun_conn)
    (h : conn_inv c) : conn_inv (tcp_fwd_ack_step t p c).1 := by
  obtain ⟨h1, h2, h3, h4⟩ := h
  unfold tcp_fwd_ack_step
  split
  · dsimp only
    apply conn_inv_process_pending
    simp_all [conn_inv]
  · exact ⟨h1, h2, h3, h4⟩

lemma conn_inv_tcp_fwd_payload_step (t : zdtun) (p : zdtun_pkt) (c : zdtun_conn)
    (no_ack send_ok : Bool) (h : conn_inv c) :
    conn_inv (tcp_fwd_payload_step t p c no_ack send_ok).1 := by
  obtain ⟨h1, h2, h3, h4⟩ := h
  unfold tcp_fwd_payload_step
  split <;> [skip; exact ⟨h1, h2, h3, h4⟩]
  split <;> [exact ⟨h1, h2, h3, h4⟩; skip]
  split <;> simp_all [conn_inv]

lemma conn_inv_handle_tcp_fwd (t : zdtun) (p : zdtun_pkt) (c : zdtun_conn)
    (no_ack sock_ok : Bool) (ns : Nat) (cres : connect_result) (send_ok : Bool)
    (h : conn_inv c) :
    conn_inv (handle_tcp_fwd t p c no_ack sock_ok ns cres send_ok).conn := by
  obtain ⟨h1, h2, h3, h4⟩ := h
  unfold handle_tcp_fwd
  dsimp only
  split
  · exact ⟨h1, h2, h3, h4⟩
  · split
    · -- NEW path
      split
      · exact ⟨h1, h2, h3, h4⟩
      · split
        · exact ⟨h1, h2, h3, h4⟩
        · split
          · rename_i hnew _ _ _
            have hp : c.pending = none := (h4 hnew).2
            simp_all [tcp_socket_syn, conn_inv]
          · rename_i hnew _ _ _
            have hp : c.pending = none := (h4 hnew).2
            simp_all [conn_inv]
    · -- established path
      split
      · exact conn_inv_close_conn _ _ ⟨h1, h2, h3, h4⟩
      · split
        · simp_all [conn_inv]
        · split
          · exact ⟨h1, h2, h3, h4⟩
          · exact conn_inv_tcp_fwd_payload_step _ _ _ _ _
              (conn_inv_tcp_fwd_ack_step _ _ _ ⟨h1, h2, h3, h4⟩)

lemma conn_inv_handle_udp_fwd (t : zdtun) (c : zdtun_conn)
    (sock_ok : Bool) (ns : Nat) (send_ok : Bool) (h : conn_inv c) :
    conn_inv (handle_udp_fwd t c sock_ok ns send_ok).conn := by
  obtain ⟨h1, h2, h3, h4⟩ := h
  unfold handle_udp_fwd
  dsimp only
  split
  · split
    · exact ⟨h1, h2, h3, h4⟩
    · rename_i hnew _
      have hp : c.pending = none := (h4 hnew).2
      split <;> simp_all [conn_inv]
  · split <;> exact ⟨h1, h2, h3, h4⟩

lemma conn_inv_handle_icmp_fwd (t : zdtun) (c : zdtun_conn) (send_ok : Bool)
    (h : conn_inv c) : conn_inv (handle_icmp_fwd t c send_ok).conn := by
  obtain ⟨h1, h2, h3, h4⟩ := h
  unfold handle_icmp_fwd
  dsimp only
  split <;> split <;> simp_all [conn_inv]

lemma conn_inv_tstamp (c : zdtun_conn) (now : Nat) (h : conn_inv c) :
    conn_inv { c with tstamp := now } := by
  obtain ⟨h1, h2, h3, h4⟩ := h
  exact ⟨h1, h2, h3, h4⟩

lemma conn_inv_zdtun_forward_full (t : zdtun) (p : zdtun_pkt) (c : zdtun_conn)
    (no_ack : Bool) (env : fwd_env) (h : conn_inv c) :
    conn_inv (zdtun_forward_full t p c no_ack env).conn := by
  unfold zdtun_forward_full
  dsimp only
  split
  · exact h
  · split
    · split
      · exact conn_inv_tstamp _ _ (conn_inv_handle_tcp_fwd _ _ _ _ _ _ _ _ h)
      · exact conn_inv_handle_tcp_fwd _ _ _ _ _ _ _ _ h
    · split
      · split
        · exact conn_inv_tstamp _ _ (conn_inv_handle_udp_fwd _ _ _ _ _ h)
        · exact conn_inv_handle_udp_fwd _ _ _ _ _ h
      · split
        · split
          · exact conn_inv_tstamp _ _ (conn_inv_handle_icmp_fwd _ _ _ h)
          · exact conn_inv_handle_icmp_fwd _ _ _ h
        · split
          · exact conn_inv_tstamp _ _ h
          · exact h

lemma conn_inv_handle_tcp_reply (t : zdtun) (c : zdtun_conn)
    (r : tcp_recv_result) (now : Nat) (hs : c.sock ≠ none) (h : conn_inv c) :
    conn_inv (handle_tcp_reply t c r now).conn := by
  obtain ⟨h1, h2, h3, h4⟩ := h
  unfold handle_tcp_reply
  dsimp only
  split
  · exact conn_inv_close_conn _ _ ⟨h1, h2, h3, h4⟩
  · exact conn_inv_close_conn _ _ ⟨h1, h2, h3, h4⟩
  · unfold tcp_socket_fin_ack finalize_zdtun_sock
    dsimp only
    split
    · exact ⟨fun _ => rfl, fun _ => ⟨rfl, rfl⟩, fun _ => rfl,
        fun hn => ⟨rfl, (h4 hn).2⟩⟩
    · exact ⟨fun _ => rfl, fun _ => ⟨rfl, rfl⟩, fun _ => rfl,
        fun hn => ⟨rfl, (h4 hn).2⟩⟩
  · split
    · apply conn_inv_process_pending
      exact ⟨h1, fun hn => ⟨rfl, (h2 hn).2⟩, fun _ => rfl,
        fun hn => absurd (h4 hn).1 hs⟩
    · exact ⟨h1, h2, h3, h4⟩

lemma conn_inv_check_dns_purge (t : zdtun) (c : zdtun_conn)
    (dns_flags l4_len : Nat) (h : conn_inv c) :
    conn_inv (check_dns_purge t c dns_flags l4_len).2.1 := by
  unfold check_dns_purge
  split
  · exact h
  · split
    · exact conn_inv_close_conn _ _ h
    · exact h

lemma conn_inv_handle_udp_reply (t : zdtun) (c : zdtun_conn)
    (r : udp_recv_result) (now : Nat) (h : conn_inv c) :
    conn_inv (handle_udp_reply t c r now).conn := by
  unfold handle_udp_reply
  dsimp only
  cases r with
  | err => exact conn_inv_close_conn _ _ h
  | bytes l4_len dns_flags =>
    exact conn_inv_check_dns_purge _ _ _ _ (conn_inv_tstamp _ _ h)

lemma conn_inv_handle_icmp_reply_conn (t : zdtun) (c : zdtun_conn)
    (l3_len now : Nat) (h : conn_inv c) :
    conn_inv (handle_icmp_reply_conn t c l3_len now).conn := by
  obtain ⟨h1, h2, h3, h4⟩ := h
  exact ⟨h1, h2, h3, h4⟩

lemma conn_inv_handle_tcp_connect_async (t : zdtun) (c : zdtun_conn)
    (r : so_error_result) (now : Nat) (h : conn_inv c) :
    conn_inv (handle_tcp_connect_async t c r now).conn := by
  unfold handle_tcp_connect_async
  cases r with
  | getsockopt_err => exact conn_inv_close_conn _ _ h
  | so_ok => exact conn_inv_tstamp _ _ (conn_inv_tcp_socket_syn _ _ h)
  | so_failed => exact conn_inv_close_conn _ _ h

/-- One engine operation touching a single connection, as the public entry
points dispatch it: forwarding (`zdtun_forward_full`, always invoked with
the connection looked up from the packet's tuple), the reply handlers and
the async-connect completion (invoked by `zdtun_handle_fd` only for
connections whose socket is not the sentinel), `close_conn`, and the DNAT
setter. The engine fields and the connection evolve together. -/
inductive zdtun_step : zdtun × zdtun_conn → zdtun × zdtun_conn → Prop where
  | fwd (t : zdtun) (c : zdtun_conn) (p : zdtun_pkt) (no_ack : Bool) (env : fwd_env)
      (ht : p.tuple = c.tuple) :
      zdtun_step (t, c)
        ((zdtun_forward_full t p c no_ack env).tun, (zdtun_forward_full t p c no_ack env).conn)
  | tcp_reply (t : zdtun) (c : zdtun_conn) (r : tcp_recv_result) (now : Nat)
      (hs : c.sock ≠ none) (hp : c.tuple.ipproto = IPPROTO_TCP) :
      zdtun_step (t, c)
        ((handle_tcp_reply t c r now).tun, (handle_tcp_reply t c r now).conn)
  | udp_reply (t : zdtun) (c : zdtun_conn) (r : udp_recv_result) (now : Nat)
      (hs : c.sock ≠ none) (hp : c.tuple.ipproto = IPPROTO_UDP) :
      zdtun_step (t, c)
        ((handle_udp_reply t c r now).tun, (handle_udp_reply t c r now).conn)
  | icmp_reply (t : zdtun) (c : zdtun_conn) (l3_len now : Nat)
      (hp : c.tuple.ipproto = IPPROTO_ICMP) :
      zdtun_step (t, c)
        ((handle_icmp_reply_conn t c l3_len now).tun, (handle_icmp_reply_conn t c l3_len now).conn)
  | connect_async (t : zdtun) (c : zdtun_conn) (r : so_error_result) (now : Nat)
      (hs : c.sock ≠ none) (hp : c.tuple.ipproto = IPPROTO_TCP) :
      zdtun_step (t, c)
        ((handle_tcp_connect_async t c r now).tun, (handle_tcp_connect_async t c r now).conn)
  | close (t : zdtun) (c : zdtun_conn) :
      zdtun_step (t, c) ((close_conn t c).1, (close_conn t c).2.1)
  | dnat (t : zdtun) (c : zdtun_conn) (ip port : Nat) :
      zdtun_step (t, c) (t, { c with dnat_ip := ip, dnat_port := port })

/-- A state reachable from a freshly created connection (`zdtun_lookup` with
creation) by any sequence of engine operations. -/
def zdtun_reachable (s : zdtun × zdtun_conn) : Prop :=
  ∃ t0 tup now, Relation.ReflTransGen zdtun_step (t0, new_zdtun_conn tup now) s

lemma conn_inv_step {s s' : zdtun × zdtun_conn} (hstep : zdtun_step s s')
    (h : conn_inv s.2) : conn_inv s'.2 := by
  cases hstep with
  | fwd t c p no_ack env ht => exact conn_inv_zdtun_forward_full t p c no_ack env h
  | tcp_reply t c r now hs hp => exact conn_inv_handle_tcp_reply t c r now hs h
  | udp_reply t c r now hs hp => exact conn_inv_handle_udp_reply t c r now h
  | icmp_reply t c l3_len now hp => exact conn_inv_handle_icmp_reply_conn t c l3_len now h
  | connect_async t c r now hs hp => exact conn_inv_handle_tcp_connect_async t c r now h
  | close t c => exact conn_inv_close_conn t c h
  | dnat t c ip port =>
    obtain ⟨h1, h2, h3, h4⟩ := h
    exact ⟨h1, h2, h3, h4⟩

lemma conn_inv_reachable {s : zdtun × zdtun_conn} (h : zdtun_reachable s) :
    conn_inv s.2 := by
  obtain ⟨t0, tup, now, hs⟩ := h
  induction hs with
  | refl => exact conn_inv_new tup now
  | tail _ hstep ih => exact conn_inv_step hstep ih

/-- The window value the spec's ACK formula prescribes:
`min(client's advertised window, engine's max) - in_flight`, with
`in_flight = zdtun_seq - client's ack` taken modulo 2^32. Stated on the spec
side to be compared with what `handle_tcp_fwd` computes. -/
def spec_ack_window (tun : zdtun) (pkt : zdtun_pkt) (conn : zdtun_conn) : Nat :=
  min pkt.th_win tun.max_window_size
    - (conn.zdtun_seq + 4294967296 - pkt.th_ack) % 4294967296

/-- The connection and emissions the spec prescribes for an ACK: set the
window to `spec_ack_window`, then attempt to drain pending data. -/
def spec_ack_drained (tun : zdtun) (pkt : zdtun_pkt) (conn : zdtun_conn) :
    zdtun_conn × List sent_pkt :=
  process_pending_tcp_packets tun { conn with window_size := spec_ack_window tun pkt conn }

/-- An engine fresh out of `zdtun_init` (ICMP socket aside), used as a
concrete fixture. -/
def test_tun : zdtun :=
  { max_window_size := TCP_WINDOW_SIZE, num_open_socks := 0, num_active_connections := 0,
    num_icmp_opened := 0, num_tcp_opened := 0, num_udp_opened := 0, conn_table := [] }

/-- A concrete TCP 5-tuple fixture. -/
def tuple_tcp_test : zdtun_5tuple :=
  { ipproto := IPPROTO_TCP, src_ip := 0x0A000001, dst_ip := 0x01020304,
    src_port := 40000, dst_port := 80 }

/-- A fresh TCP connection record fixture. -/
def conn_c1_test : zdtun_conn := new_zdtun_conn tuple_tcp_test 0

/-- A client SYN with sequence number 1000 (spec scenario S1). -/
def pkt_c1_test : zdtun_pkt :=
  { tuple := tuple_tcp_test, pkt_len := 40, ip_hdr_len := 20, l4_hdr_len := 20,
    l7_len := 0, th_seq := 1000, th_ack := 0, th_flags := TH_SYN, th_win := 64240 }

/-- An established TCP connection fixture with a live socket. -/
def conn_c2_test : zdtun_conn :=
  { new_zdtun_conn tuple_tcp_test 0 with
      status := CONN_STATUS_CONNECTED, sock := some 5, in_all_fds := true,
      client_seq := 1001, zdtun_seq := 2000, window_size := 100 }

/-- A client RST+ACK segment for `conn_c2_test`. -/
def pkt_c2_rst : zdtun_pkt :=
  { tuple := tuple_tcp_test, pkt_len := 40, ip_hdr_len := 20, l4_hdr_len := 20,
    l7_len := 0, th_seq := 1001, th_ack := 1500, th_flags := TH_RST ||| TH_ACK,
    th_win := 500 }

/-- A pure client ACK segment for `conn_c2_test`. -/
def pkt_c2_ack : zdtun_pkt :=
  { tuple := tuple_tcp_test, pkt_len := 40, ip_hdr_len := 20, l4_hdr_len := 20,
    l7_len := 0, th_seq := 1001, th_ack := 1500, th_flags := TH_ACK, th_win := 500 }

/-- An established TCP connection with five pending bytes and window 3. -/
def conn_c3_test : zdtun_conn :=
  { new_zdtun_conn tuple_tcp_test 0 with
      status := CONN_STATUS_CONNECTED, sock := some 4,
      pending := some { data := [1, 2, 3, 4, 5], size := 5, sofar := 0 },
      window_size := 3, zdtun_seq := 2000, client_seq := 1001 }

/-- An established TCP connection with no pending data. -/
def conn_c3_idle : zdtun_conn :=
  { new_zdtun_conn tuple_tcp_test 0 with
      status := CONN_STATUS_CONNECTED, sock := some 4, window_size := 7 }

/-- A TCP connection still in CONNECTING (asynchronous connect pending). -/
def conn_c4_test : zdtun_conn :=
  { new_zdtun_conn tuple_tcp_test 0 with
      status := CONN_STATUS_CONNECTING, sock := some 7, in_all_fds := true,
      in_tcp_connecting := true, client_seq := 1001, zdtun_seq := 2011920363 }

/-- A CONNECTED record whose protocol (GRE, 47) is outside TCP/UDP/ICMP. -/
def conn_c5_test : zdtun_conn :=
  { new_zdtun_conn { ipproto := 47, src_ip := 1, dst_ip := 2, src_port := 3, dst_port := 4 } 10 with
      status := CONN_STATUS_CONNECTED, sock := some 9, in_all_fds := true }

/-- An engine holding only `conn_c5_test`. -/
def tun_c5_test : zdtun :=
  { test_tun with conn_table := [conn_c5_test], num_active_connections := 1, num_open_socks := 1 }

/-- A fresh TCP record created at time 100. -/
def conn_c5_fresh : zdtun_conn := new_zdtun_conn tuple_tcp_test 100

/-- An engine holding only `conn_c5_fresh`. -/
def tun_c5_fresh : zdtun :=
  { test_tun with conn_table := [conn_c5_fresh], num_active_connections := 1 }

/-- A raw buffer with IP version 6. -/
def raw_c6_v6 : raw_pkt :=
  { pkt_len := 40, version := 6, ihl := 5, protocol := IPPROTO_TCP, saddr := 1, daddr := 2,
    th_sport := 3, th_dport := 4, th_seq := 0, th_ack := 0, th_off := 5, th_flags := 2,
    th_win := 0, uh_sport := 0, uh_dport := 0, icmp_type := 0, echo_id := 0, echo_seq := 0 }

/-- An IPv4 TCP buffer of 30 bytes, shorter than IP header plus 20. -/
def raw_c6_short_tcp : raw_pkt :=
  { raw_c6_v6 with version := 4, pkt_len := 30 }

/-- An IPv4 ICMP buffer whose type (3) is neither echo nor echo reply. -/
def raw_c6_icmp_bad : raw_pkt :=
  { raw_c6_v6 with version := 4, protocol := IPPROTO_ICMP, icmp_type := 3, pkt_len := 28 }

/-- An IPv4 buffer carrying GRE (protocol 47). -/
def raw_c6_gre : raw_pkt :=
  { raw_c6_v6 with version := 4, protocol := 47 }

/-- A UDP 5-tuple toward port 53 (spec scenario S4). -/
def tuple_udp_dns : zdtun_5tuple :=
  { ipproto := IPPROTO_UDP, src_ip := 0x0A000001, dst_ip := 0x08080808,
    src_port := 51000, dst_port := 53 }

/-- A CONNECTED UDP connection to port 53 with a live socket. -/
def conn_c7_test : zdtun_conn :=
  { new_zdtun_conn tuple_udp_dns 0 with
      status := CONN_STATUS_CONNECTED, sock := some 8, in_all_fds := true }

/-- An engine with one open socket. -/
def tun_c7_test : zdtun := { test_tun with num_open_socks := 1 }

/-- A TCP record already CLOSED. -/
def conn_closed_test : zdtun_conn :=
  { new_zdtun_conn tuple_tcp_test 0 with status := CONN_STATUS_CLOSED }

/-- A raw IPv4 TCP buffer with only the ACK flag (no SYN). -/
def raw_c10_ack : raw_pkt :=
  { pkt_len := 40, version := 4, ihl := 5, protocol := IPPROTO_TCP, saddr := 1, daddr := 2,
    th_sport := 3, th_dport := 4, th_seq := 77, th_ack := 88, th_off := 5, th_flags := TH_ACK,
    th_win := 1000, uh_sport := 0, uh_dport := 0, icmp_type := 0, echo_id := 0, echo_seq := 0 }

/-- The parsed view of `raw_c10_ack`. -/
def pkt_c10_ack : zdtun_pkt :=
  { tuple := { ipproto := IPPROTO_TCP, src_ip := 1, dst_ip := 2, src_port := 3, dst_port := 4 },
    pkt_len := 40, ip_hdr_len := 20, l4_hdr_len := 20, l7_len := 0,
    th_seq := 77, th_ack := 88, th_flags := TH_ACK, th_win := 1000 }

/-- A parsed UDP packet view. -/
def pkt_c10_udp : zdtun_pkt :=
  { tuple := { ipproto := IPPROTO_UDP, src_ip := 1, dst_ip := 2, src_port := 3, dst_port := 4 },
    pkt_len := 40, ip_hdr_len := 20, l4_hdr_len := 8, l7_len := 12,
    th_seq := 0, th_ack := 0, th_flags := 0, th_win := 0 }

lemma tcp_fwd_payload_fields (t : zdtun) (p : zdtun_pkt) (c : zdtun_conn)
    (no_ack send_ok : Bool) :
    (tcp_fwd_payload_step t p c no_ack send_ok).1.window_size = c.window_size ∧
    (tcp_fwd_payload_step t p c no_ack send_ok).1.zdtun_seq = c.zdtun_seq ∧
    (tcp_fwd_payload_step t p c no_ack send_ok).1.pending = c.pending ∧
    (tcp_fwd_payload_step t p c no_ack send_ok).1.in_all_fds = c.in_all_fds := by
  unfold tcp_fwd_payload_step
  split
  · split
    · exact ⟨rfl, rfl, rfl, rfl⟩
    · split
      · exact ⟨rfl, rfl, rfl, rfl⟩
      · exact ⟨rfl, rfl, rfl, rfl⟩
  · exact ⟨rfl, rfl, rfl, rfl⟩

lemma close_conn_status_closed (tun : zdtun) (conn : zdtun_conn) :
    (close_conn tun conn).2.1.status = CONN_STATUS_CLOSED := by
  unfold close_conn
  split
  · assumption
  · rfl

lemma close_conn_of_closed (tun : zdtun) (conn : zdtun_conn)
    (h : conn.status = CONN_STATUS_CLOSED) : close_conn tun conn = (tun, conn, []) := by
  rw [close_conn, if_pos h]

lemma purge_single_closed (t2 : zdtun) (n2 : Nat) (c : zdtun_conn)
    (h : c.status = CONN_STATUS_CLOSED) :
    (zdtun_purge_expired { t2 with conn_table := [c] } n2).conn_table = [] := by
  unfold zdtun_purge_expired
  have hp : purge_expired_pred n2 c = true := decide_eq_true (Or.inl h)
  dsimp only
  simp only [List.filter, hp, Bool.not_true, decide_not]
  split <;> simp

/-- C1: for a TCP connection record in status NEW whose connect completes
synchronously, `handle_tcp_fwd` seeds `client_seq` to the client's sequence
number plus 1 (mod 2^32) and `zdtun_seq` to 0x77EB77EB, emits exactly one
packet with flags SYN+ACK whose ack field equals the seeded `client_seq`,
whose seq field equals 0x77EB77EB and whose ports are the client's ports
swapped, and then increments `zdtun_seq` by 1 (to 0x77EB77EC). -/
theorem C1_tcp_syn_synchronous_handshake (tun : zdtun) (pkt : zdtun_pkt)
    (conn : zdtun_conn) (no_ack : Bool) (ns : Nat) (send_ok : Bool)
    (h : conn.status = CONN_STATUS_NEW) :
    (handle_tcp_fwd tun pkt conn no_ack true ns connect_result.sync_ok send_ok).conn.client_seq
        = mod32 (pkt.th_seq + 1) ∧
    (handle_tcp_fwd tun pkt conn no_ack true ns connect_result.sync_ok send_ok).conn.zdtun_seq
        = 0x77EB77EC ∧
    ∃ ip th,
      (handle_tcp_fwd tun pkt conn no_ack true ns connect_result.sync_ok send_ok).pkts
          = [{ ip := ip, l4 := l4_out.tcp th [] }] ∧
      th.th_flags = TH_SYN ||| TH_ACK ∧
      th.th_ack = (handle_tcp_fwd tun pkt conn no_ack true ns
          connect_result.sync_ok send_ok).conn.client_seq ∧
      th.th_seq = 0x77EB77EB ∧
      th.th_sport = conn.tuple.dst_port ∧
      th.th_dport = conn.tuple.src_port := by
  simp only [handle_tcp_fwd, h, tcp_socket_syn, build_tcp_ip_header, reduceCtorEq,
    reduceIte, TH_SYN, TH_ACK]
  norm_num
  refine ⟨by decide, _, _, ⟨rfl, rfl⟩, rfl, rfl, rfl, rfl, rfl⟩

/-- C1 witness: the handshake theorem applied to a concrete NEW connection
and a client SYN with sequence number 1000. -/
theorem C1_tcp_syn_synchronous_handshake_witness :
    conn_c1_test.status = CONN_STATUS_NEW ∧
    ((handle_tcp_fwd test_tun pkt_c1_test conn_c1_test false true 5
        connect_result.sync_ok true).conn.client_seq = mod32 (pkt_c1_test.th_seq + 1) ∧
     (handle_tcp_fwd test_tun pkt_c1_test conn_c1_test false true 5
        connect_result.sync_ok true).conn.zdtun_seq = 0x77EB77EC ∧
     ∃ ip th,
       (handle_tcp_fwd test_tun pkt_c1_test conn_c1_test false true 5
          connect_result.sync_ok true).pkts = [{ ip := ip, l4 := l4_out.tcp th [] }] ∧
       th.th_flags = TH_SYN ||| TH_ACK ∧
       th.th_ack = (handle_tcp_fwd test_tun pkt_c1_test conn_c1_test false true 5
          connect_result.sync_ok true).conn.client_seq ∧
       th.th_seq = 0x77EB77EB ∧
       th.th_sport = conn_c1_test.tuple.dst_port ∧
       th.th_dport = conn_c1_test.tuple.src_port) :=
  ⟨rfl, C1_tcp_syn_synchronous_handshake test_tun pkt_c1_test conn_c1_test false 5 true rfl⟩

/-- C2 counterexample: a client segment with the ACK flag set (together with
RST) arriving on a CONNECTED connection with a live socket for which the
engine does not set the window to `min(advertised, max) - in_flight`: the
spec formula gives 0, but `handle_tcp_fwd` closes the connection and leaves
`window_size` at 100. The claim's quantification over every ACK-flagged
packet is therefore false; the RST (and FIN+ACK) paths run first. -/
theorem C2_ack_window_counterexample :
    pkt_c2_rst.th_flags &&& TH_ACK ≠ 0 ∧
    conn_c2_test.status = CONN_STATUS_CONNECTED ∧
    conn_c2_test.sock = some 5 ∧
    conn_c2_test.pending = none ∧
    spec_ack_window test_tun pkt_c2_rst conn_c2_test = 0 ∧
    (handle_tcp_fwd test_tun pkt_c2_rst conn_c2_test false true 9
        connect_result.sync_ok true).conn.window_size = 100 := by
  refine ⟨by decide, rfl, rfl, rfl, by decide, rfl⟩

/-- C2 (amended): for every client TCP segment with the ACK flag set, the
RST flag clear and not carrying FIN+ACK, arriving on a CONNECTED connection
with a live socket, and whose in-flight count `(zdtun_seq - ack) mod 2^32`
does not exceed `min(advertised window, engine max)`, `handle_tcp_fwd` sets
the connection's window to `min(advertised, max) - in_flight` and then
drains pending server data: the resulting window, `zdtun_seq`, pending
buffer and readability registration are those of `spec_ack_drained`, and
the drain's emissions come first. The range hypotheses state that the
u32/u16 header fields are in range. -/
theorem C2_ack_window_update (tun : zdtun) (pkt : zdtun_pkt) (conn : zdtun_conn) (s : Nat)
    (no_ack sock_ok send_ok : Bool) (ns : Nat) (cres : connect_result)
    (h1 : conn.status = CONN_STATUS_CONNECTED)
    (h2 : conn.sock = some s)
    (h3 : pkt.th_flags &&& TH_RST = 0)
    (h4 : pkt.th_flags &&& (TH_FIN ||| TH_ACK) ≠ TH_FIN ||| TH_ACK)
    (h5 : pkt.th_flags &&& TH_ACK ≠ 0)
    (hseq : conn.zdtun_seq < 4294967296)
    (hack : pkt.th_ack < 4294967296)
    (hwin : pkt.th_win < 65536)
    (hin : (conn.zdtun_seq + 4294967296 - pkt.th_ack) % 4294967296
             ≤ min pkt.th_win tun.max_window_size) :
    (handle_tcp_fwd tun pkt conn no_ack sock_ok ns cres send_ok).conn.window_size
      = (spec_ack_drained tun pkt conn).1.window_size ∧
    (handle_tcp_fwd tun pkt conn no_ack sock_ok ns cres send_ok).conn.zdtun_seq
      = (spec_ack_drained tun pkt conn).1.zdtun_seq ∧
    (handle_tcp_fwd tun pkt conn no_ack sock_ok ns cres send_ok).conn.pending
      = (spec_ack_drained tun pkt conn).1.pending ∧
    (handle_tcp_fwd tun pkt conn no_ack sock_ok ns cres send_ok).conn.in_all_fds
      = (spec_ack_drained tun pkt conn).1.in_all_fds ∧
    ∃ rest, (handle_tcp_fwd tun pkt conn no_ack sock_ok ns cres send_ok).pkts
      = (spec_ack_drained tun pkt conn).2 ++ rest := by
  have hwv : mod16 (mod32 (min pkt.th_win tun.max_window_size + 4294967296 -
      (if conn.zdtun_seq ≥ pkt.th_ack then conn.zdtun_seq - pkt.th_ack
       else 0xFFFFFFFF - pkt.th_ack + conn.zdtun_seq + 1)))
      = spec_ack_window tun pkt conn := by
    unfold spec_ack_window mod16 mod32
    split <;> omega
  simp only [handle_tcp_fwd, tcp_fwd_ack_step, spec_ack_drained, h1, h2, h3, h4, h5,
    reduceCtorEq, reduceIte, ne_eq, not_true_eq_false, not_false_eq_true, hwv]
  exact ⟨(tcp_fwd_payload_fields _ _ _ _ _).1, (tcp_fwd_payload_fields _ _ _ _ _).2.1,
    (tcp_fwd_payload_fields _ _ _ _ _).2.2.1, (tcp_fwd_payload_fields _ _ _ _ _).2.2.2, _, rfl⟩

/-- C2 witness: the amended window theorem applied to a concrete CONNECTED
connection (zdtun_seq 2000) receiving a pure ACK (ack 1500, window 500). -/
theorem C2_ack_window_update_witness :
    (handle_tcp_fwd test_tun pkt_c2_ack conn_c2_test false true 9
        connect_result.sync_ok true).conn.window_size
      = (spec_ack_drained test_tun pkt_c2_ack conn_c2_test).1.window_size ∧
    (handle_tcp_fwd test_tun pkt_c2_ack conn_c2_test false true 9
        connect_result.sync_ok true).conn.zdtun_seq
      = (spec_ack_drained test_tun pkt_c2_ack conn_c2_test).1.zdtun_seq ∧
    (handle_tcp_fwd test_tun pkt_c2_ack conn_c2_test false true 9
        connect_result.sync_ok true).conn.pending
      = (spec_ack_drained test_tun pkt_c2_ack conn_c2_test).1.pending ∧
    (handle_tcp_fwd test_tun pkt_c2_ack conn_c2_test false true 9
        connect_result.sync_ok true).conn.in_all_fds
      = (spec_ack_drained test_tun pkt_c2_ack conn_c2_test).1.in_all_fds ∧
    ∃ rest, (handle_tcp_fwd test_tun pkt_c2_ack conn_c2_test false true 9
        connect_result.sync_ok true).pkts
      = (spec_ack_drained test_tun pkt_c2_ack conn_c2_test).2 ++ rest :=
  C2_ack_window_update test_tun pkt_c2_ack conn_c2_test 5 false true true 9
    connect_result.sync_ok rfl rfl (by decide) (by decide) (by decide) (by decide)
    (by decide) (by decide) (by decide)

/-- C3: flow control and the drain step. (a) In every state reachable by
engine operations, a connection with a non-empty pending queue is not
registered for readability. (b) One drain of pending data with a live
socket and a positive window emits exactly one PUSH+ACK carrying
`to_send = min(window, remaining)` bytes, advances `zdtun_seq` by `to_send`
and shrinks the window by `to_send`; the buffer is freed and the socket
re-registered exactly when it becomes fully drained, and afterwards the
pending queue is empty or the window is zero (so the single pass realizes
the spec's while loop). (c) With no pending data, a zero window or a
sentinel socket, the drain does nothing. -/
theorem C3_flow_control_drain :
    (∀ s : zdtun × zdtun_conn, zdtun_reachable s →
      s.2.pending ≠ none → s.2.in_all_fds = false) ∧
    (∀ (tun : zdtun) (conn : zdtun_conn) (p : tcp_pending_data) (sk : Nat),
      conn.pending = some p → conn.sock = some sk → 0 < conn.window_size →
      p.sofar ≤ p.size → p.size = p.data.length →
      ∃ ip th,
        (process_pending_tcp_packets tun conn).2
          = [{ ip := ip, l4 := l4_out.tcp th ((p.data.drop p.sofar).take
                (min conn.window_size (p.size - p.sofar))) }] ∧
        th.th_flags = TH_PUSH ||| TH_ACK ∧
        ((p.data.drop p.sofar).take (min conn.window_size (p.size - p.sofar))).length
          = min conn.window_size (p.size - p.sofar) ∧
        (process_pending_tcp_packets tun conn).1.zdtun_seq
          = mod32 (conn.zdtun_seq + min conn.window_size (p.size - p.sofar)) ∧
        (process_pending_tcp_packets tun conn).1.window_size
          = conn.window_size - min conn.window_size (p.size - p.sofar) ∧
        ((process_pending_tcp_packets tun conn).1.pending = none ↔
          p.size - p.sofar = min conn.window_size (p.size - p.sofar)) ∧
        (p.size - p.sofar = min conn.window_size (p.size - p.sofar) →
          (process_pending_tcp_packets tun conn).1.in_all_fds = true) ∧
        (p.size - p.sofar ≠ min conn.window_size (p.size - p.sofar) →
          (process_pending_tcp_packets tun conn).1.pending
              = some { p with sofar := p.sofar + min conn.window_size (p.size - p.sofar) } ∧
          (process_pending_tcp_packets tun conn).1.in_all_fds = conn.in_all_fds) ∧
        ((process_pending_tcp_packets tun conn).1.pending = none ∨
          (process_pending_tcp_packets tun conn).1.window_size = 0)) ∧
    (∀ (tun : zdtun) (conn : zdtun_conn),
      conn.pending = none ∨ conn.window_size = 0 ∨ conn.sock = none →
      process_pending_tcp_packets tun conn = (conn, [])) := by
  refine ⟨?_, ?_, ?_⟩
  · intro s hs hp
    exact (conn_inv_reachable hs).2.2.1 hp
  · intro tun conn p sk hp hsock hw hsofar hsize
    have hguard : ¬ (conn.window_size = 0 ∨ conn.sock = none) := by
      simp [hsock]
      omega
    simp only [process_pending_tcp_packets, hp, hguard, reduceIte, if_false]
    have hlen : ((p.data.drop p.sofar).take (min conn.window_size (p.size - p.sofar))).length
        = min conn.window_size (p.size - p.sofar) := by
      rw [List.length_take, List.length_drop]
      omega
    by_cases hrem : p.size - p.sofar = min conn.window_size (p.size - p.sofar)
    · rw [if_pos hrem]
      exact ⟨_, _, rfl, rfl, hlen, rfl, rfl, iff_of_true rfl hrem,
        fun _ => rfl, fun hc => absurd hrem hc, Or.inl rfl⟩
    · rw [if_neg hrem]
      refine ⟨_, _, rfl, rfl, hlen, rfl, rfl, ?_, ?_, ?_, ?_⟩
      · simp [hrem]
      · intro hx
        exact absurd hx hrem
      · intro _
        exact ⟨rfl, rfl⟩
      · right
        dsimp only
        omega
  · intro tun conn hd
    unfold process_pending_tcp_packets
    rcases hd with hp | hrest
    · rw [hp]
    · cases hpc : conn.pending with
      | none => rfl
      | some q =>
        dsimp only
        rw [if_pos hrest]

/-- C3 witness: the invariant at the freshly created connection, and the
drain equations on a connection holding five pending bytes with window 3
(the drain sends 3 bytes and closes the window) plus the no-op guard on a
connection with nothing pending. -/
theorem C3_flow_control_drain_witness :
    ((test_tun, new_zdtun_conn tuple_tcp_test 0).2.pending ≠ none →
      (test_tun, new_zdtun_conn tuple_tcp_test 0).2.in_all_fds = false) ∧
    (∃ ip th,
      (process_pending_tcp_packets test_tun conn_c3_test).2
        = [{ ip := ip, l4 := l4_out.tcp th
              ((([1, 2, 3, 4, 5] : List Nat).drop 0).take
                (min conn_c3_test.window_size 5)) }] ∧
      th.th_flags = TH_PUSH ||| TH_ACK ∧
      ((([1, 2, 3, 4, 5] : List Nat).drop 0).take (min conn_c3_test.window_size 5)).length
        = min conn_c3_test.window_size 5) ∧
    (process_pending_tcp_packets test_tun conn_c3_test).1.zdtun_seq = mod32 (2000 + 3) ∧
    (process_pending_tcp_packets test_tun conn_c3_test).1.window_size = 0 ∧
    process_pending_tcp_packets test_tun conn_c3_idle = (conn_c3_idle, []) := by
  have h1 := (C3_flow_control_drain.1 (test_tun, new_zdtun_conn tuple_tcp_test 0)
    ⟨test_tun, tuple_tcp_test, 0, Relation.ReflTransGen.refl⟩)
  have h2 := C3_flow_control_drain.2.1 test_tun conn_c3_test
    { data := [1, 2, 3, 4, 5], size := 5, sofar := 0 } 4 rfl rfl (by decide) (by decide) rfl
  have h3 := C3_flow_control_drain.2.2 test_tun conn_c3_idle (Or.inl rfl)
  obtain ⟨ip, th, hpkts, hflags, hlen, hseq, hwin, -⟩ := h2
  exact ⟨h1, ⟨ip, th, hpkts, hflags, hlen⟩, hseq, hwin, h3⟩

/-- C4 counterexample: `close_conn` on a TCP connection still in CONNECTING
(not CONNECTED) with `fin_ack_sent` false emits one RST+ACK, so the claim's
"the RST+ACK is emitted only when the connection is still CONNECTED" is
false on the code: the source checks only that the record is TCP, not yet
CLOSED, and has not sent FIN+ACK. -/
theorem C4_close_conn_counterexample :
    conn_c4_test.status ≠ CONN_STATUS_CONNECTED ∧
    conn_c4_test.fin_ack_sent = false ∧
    (close_conn test_tun conn_c4_test).2.2.length = 1 ∧
    ∃ ip th, (close_conn test_tun conn_c4_test).2.2 = [{ ip := ip, l4 := l4_out.tcp th [] }] ∧
      th.th_flags = TH_RST ||| TH_ACK := by
  exact ⟨by decide, rfl, rfl, _, _, rfl, rfl⟩

/-- C4 (amended): `close_conn` is idempotent - a second call on the
resulting state is a no-op that emits nothing, so two calls are
indistinguishable from one and produce at most one RST; the RST+ACK is
emitted exactly when the connection is TCP, not yet CLOSED (any of NEW,
CONNECTING, CONNECTED) and `fin_ack_sent` is false. -/
theorem C4_close_conn_idempotent (tun : zdtun) (conn : zdtun_conn) :
    close_conn (close_conn tun conn).1 (close_conn tun conn).2.1
        = ((close_conn tun conn).1, (close_conn tun conn).2.1, []) ∧
    (close_conn tun conn).2.2.length ≤ 1 ∧
    ((close_conn tun conn).2.2 ≠ [] ↔
      (conn.status ≠ CONN_STATUS_CLOSED ∧ conn.tuple.ipproto = IPPROTO_TCP ∧
       conn.fin_ack_sent = false)) := by
  refine ⟨close_conn_of_closed _ _ (close_conn_status_closed tun conn), ?_, ?_⟩
  · by_cases hst : conn.status = CONN_STATUS_CLOSED
    · rw [close_conn_of_closed tun conn hst]
      simp
    · rw [close_conn, if_neg hst]
      by_cases hsk : conn.sock = none
      · simp only [hsk, ne_eq, not_true_eq_false, if_false, reduceIte]
        split <;> simp
      · simp only [hsk, ne_eq, not_false_eq_true, if_true, reduceIte, finalize_zdtun_sock]
        split <;> simp
  · by_cases hst : conn.status = CONN_STATUS_CLOSED
    · rw [close_conn_of_closed tun conn hst]
      simp [hst]
    · rw [close_conn, if_neg hst]
      by_cases hsk : conn.sock = none
      · simp only [hsk, ne_eq, not_true_eq_false, if_false, reduceIte]
        split
        · rename_i hcond
          simp only [ne_eq, reduceCtorEq]
          constructor
          · intro _
            exact ⟨hst, hcond⟩
          · intro _
            simp
        · rename_i hcond
          constructor
          · intro hx
            exact absurd rfl hx
          · intro hx
            exact absurd ⟨hx.2.1, hx.2.2⟩ hcond
      · simp only [hsk, ne_eq, not_false_eq_true, if_true, reduceIte, finalize_zdtun_sock]
        split
        · rename_i hcond
          constructor
          · intro _
            exact ⟨hst, hcond⟩
          · intro _
            simp
        · rename_i hcond
          constructor
          · intro hx
            exact absurd rfl hx
          · intro hx
            exact absurd ⟨hx.2.1, hx.2.2⟩ hcond

/-- C4 witness: idempotence evaluated on the CONNECTING fixture, whose
single close emits exactly one RST. -/
theorem C4_close_conn_idempotent_witness :
    close_conn (close_conn test_tun conn_c4_test).1 (close_conn test_tun conn_c4_test).2.1
        = ((close_conn test_tun conn_c4_test).1, (close_conn test_tun conn_c4_test).2.1, []) ∧
    (close_conn test_tun conn_c4_test).2.2.length ≤ 1 ∧
    ((close_conn test_tun conn_c4_test).2.2 ≠ [] ↔
      (conn_c4_test.status ≠ CONN_STATUS_CLOSED ∧
       conn_c4_test.tuple.ipproto = IPPROTO_TCP ∧
       conn_c4_test.fin_ack_sent = false)) :=
  C4_close_conn_idempotent test_tun conn_c4_test

/-- C5 counterexample: a CONNECTED record with protocol 47 (GRE), zero
seconds idle, is destroyed by `zdtun_purge_expired` - the switch leaves its
timeout at 0, so protocols outside TCP/UDP/ICMP are purged immediately, not
exempt from idle purging as the claim states. -/
theorem C5_purge_counterexample :
    conn_c5_test.tuple.ipproto ≠ IPPROTO_TCP ∧
    conn_c5_test.tuple.ipproto ≠ IPPROTO_UDP ∧
    conn_c5_test.tuple.ipproto ≠ IPPROTO_ICMP ∧
    conn_c5_test.status ≠ CONN_STATUS_CLOSED ∧
    10 - conn_c5_test.tstamp = 0 ∧
    tun_c5_test.conn_table = [conn_c5_test] ∧
    (zdtun_purge_expired tun_c5_test 10).conn_table = [] := by
  refine ⟨by decide, by decide, by decide, by decide, rfl, rfl, rfl⟩

/-- C5 (amended): after `zdtun_purge_expired tun now`, no record remains
that is CLOSED or satisfies `now ≥ timeout(ipproto) + tstamp`, where the
timeout is 30 s for TCP, 15 s for UDP, 5 s for ICMP and 0 for every other
protocol (so such records are destroyed whenever `now ≥ tstamp`, rather
than being exempt). In particular no surviving record is strictly beyond
its idle budget. -/
theorem C5_purge_correctness (tun : zdtun) (now : Nat) (c : zdtun_conn)
    (hc : c ∈ (zdtun_purge_expired tun now).conn_table) :
    c.status ≠ CONN_STATUS_CLOSED ∧ now < conn_idle_timeout c.tuple.ipproto + c.tstamp := by
  have hkept : c ∈ tun.conn_table.filter (fun x => ¬ purge_expired_pred now x) := by
    unfold zdtun_purge_expired at hc
    dsimp only at hc
    split at hc
    · exact (List.mergeSort_perm _ _).mem_iff.mp (List.mem_of_mem_drop hc)
    · exact hc
  have h2 := (List.mem_filter.mp hkept).2
  rw [purge_expired_pred] at h2
  have hnd := of_decide_eq_true h2
  have h3 : ¬ (c.status = CONN_STATUS_CLOSED ∨
      now ≥ conn_idle_timeout c.tuple.ipproto + c.tstamp) :=
    fun hx => hnd (decide_eq_true hx)
  push_neg at h3
  exact ⟨h3.1, by omega⟩

/-- C5 witness: the purge-correctness theorem applied to a fresh TCP record
created at time 100 that survives a purge at time 100. -/
theorem C5_purge_correctness_witness :
    conn_c5_fresh.status ≠ CONN_STATUS_CLOSED ∧
    100 < conn_idle_timeout conn_c5_fresh.tuple.ipproto + conn_c5_fresh.tstamp :=
  C5_purge_correctness tun_c5_fresh 100 conn_c5_fresh (by decide)

/-- C6 counterexample: the rejection classes do not receive pairwise
distinct codes - a non-IPv4 buffer and a truncated TCP buffer (two
different classes in the claim's list) both return -1 from
`zdtun_parse_pkt`. -/
theorem C6_parse_counterexample :
    raw_c6_v6.version ≠ 4 ∧
    raw_c6_short_tcp.version = 4 ∧
    raw_c6_short_tcp.protocol = IPPROTO_TCP ∧
    raw_c6_short_tcp.pkt_len < raw_c6_short_tcp.ihl * 4 + MIN_TCP_HEADER_LEN ∧
    zdtun_parse_pkt raw_c6_v6 = .error (-1) ∧
    zdtun_parse_pkt raw_c6_short_tcp = .error (-1) := by
  refine ⟨by decide, rfl, rfl, by decide, rfl, rfl⟩

/-- C6 (amended): the parser returns a negative code on every rejection -
-1 for IP version different from 4 and for every truncation (IP header, TCP
shorter than 20 bytes or than the declared data offset, UDP shorter than 8
bytes, ICMP shorter than its header), -2 for ICMP that is neither echo
request nor echo reply, and -3 for any other L4 protocol; -1 is shared
among the version and truncation classes rather than being distinct per
class. The parser is a pure function of the buffer (`zdtun_parse_pkt` takes
no engine state), so the engine state is unchanged on every rejection. -/
theorem C6_parse_error_codes (p : raw_pkt) :
    (p.version ≠ 4 → zdtun_parse_pkt p = .error (-1)) ∧
    (p.version = 4 → p.pkt_len < p.ihl * 4 → zdtun_parse_pkt p = .error (-1)) ∧
    (p.version = 4 → ¬ p.pkt_len < p.ihl * 4 → p.protocol = IPPROTO_TCP →
      (p.pkt_len < p.ihl * 4 + MIN_TCP_HEADER_LEN ∨ p.pkt_len < p.ihl * 4 + p.th_off * 4) →
      zdtun_parse_pkt p = .error (-1)) ∧
    (p.version = 4 → ¬ p.pkt_len < p.ihl * 4 → p.protocol = IPPROTO_UDP →
      p.pkt_len < p.ihl * 4 + UDP_HEADER_LEN → zdtun_parse_pkt p = .error (-1)) ∧
    (p.version = 4 → ¬ p.pkt_len < p.ihl * 4 → p.protocol = IPPROTO_ICMP →
      p.pkt_len < p.ihl * 4 + 8 → zdtun_parse_pkt p = .error (-1)) ∧
    (p.version = 4 → ¬ p.pkt_len < p.ihl * 4 → p.protocol = IPPROTO_ICMP →
      ¬ p.pkt_len < p.ihl * 4 + 8 → p.icmp_type ≠ ICMP_ECHO → p.icmp_type ≠ ICMP_ECHOREPLY →
      zdtun_parse_pkt p = .error (-2)) ∧
    (p.version = 4 → ¬ p.pkt_len < p.ihl * 4 →
      p.protocol ≠ IPPROTO_TCP → p.protocol ≠ IPPROTO_UDP → p.protocol ≠ IPPROTO_ICMP →
      zdtun_parse_pkt p = .error (-3)) := by
  refine ⟨?_, ?_, ?_, ?_, ?_, ?_, ?_⟩
  · intro h
    simp [zdtun_parse_pkt, h]
  · intro h4 hlen
    simp [zdtun_parse_pkt, h4, hlen]
  · intro h4 hlen hproto hd
    by_cases h20 : p.pkt_len < p.ihl * 4 + MIN_TCP_HEADER_LEN
    · simp [zdtun_parse_pkt, IPPROTO_TCP, IPPROTO_UDP, IPPROTO_ICMP, h4, hlen, hproto, h20]
    · have hoff : p.pkt_len < p.ihl * 4 + p.th_off * 4 := by
        rcases hd with hd | hd
        · exact absurd hd h20
        · exact hd
      simp [zdtun_parse_pkt, IPPROTO_TCP, IPPROTO_UDP, IPPROTO_ICMP, h4, hlen, hproto,
        h20, hoff]
  · intro h4 hlen hproto hshort
    simp [zdtun_parse_pkt, IPPROTO_TCP, IPPROTO_UDP, IPPROTO_ICMP, h4, hlen, hproto, hshort]
  · intro h4 hlen hproto hshort
    simp [zdtun_parse_pkt, IPPROTO_TCP, IPPROTO_UDP, IPPROTO_ICMP, h4, hlen, hproto, hshort]
  · intro h4 hlen hproto hshort ht1 ht2
    simp [zdtun_parse_pkt, IPPROTO_TCP, IPPROTO_UDP, IPPROTO_ICMP, ICMP_ECHO,
      ICMP_ECHOREPLY, h4, hlen, hproto, hshort, ht1, ht2]
    exact ⟨by simpa [ICMP_ECHO] using ht1, by simpa [ICMP_ECHOREPLY] using ht2⟩
  · intro h4 hlen hp1 hp2 hp3
    simp [zdtun_parse_pkt, h4, hlen, hp1, hp2, hp3]

/-- C6 witness: one rejection per code class - version 6, truncated TCP,
non-echo ICMP and GRE buffers parsed through the theorem's branches. -/
theorem C6_parse_error_codes_witness :
    zdtun_parse_pkt raw_c6_v6 = .error (-1) ∧
    zdtun_parse_pkt raw_c6_short_tcp = .error (-1) ∧
    zdtun_parse_pkt raw_c6_icmp_bad = .error (-2) ∧
    zdtun_parse_pkt raw_c6_gre = .error (-3) :=
  ⟨(C6_parse_error_codes raw_c6_v6).1 (by decide),
   (C6_parse_error_codes raw_c6_short_tcp).2.2.1 rfl (by decide) rfl (Or.inl (by decide)),
   (C6_parse_error_codes raw_c6_icmp_bad).2.2.2.2.2.1 rfl (by decide) rfl (by decide)
     (by decide) (by decide),
   (C6_parse_error_codes raw_c6_gre).2.2.2.2.2.2 rfl (by decide) (by decide) (by decide)
     (by decide)⟩

/-- C7: a UDP reply on a connection whose destination port is 53, at least
as long as the DNS header view and whose DNS flags carry the response bit,
is first forwarded to the client (the reply is the only emission - closing
a UDP connection sends nothing) and the connection is closed via
`close_conn`: its status becomes CLOSED, `num_open_socks` drops by 1, and
any subsequent purge destroys the record. -/
theorem C7_dns_eager_purge (tun : zdtun) (conn : zdtun_conn) (s l4_len dns_flags now : Nat)
    (hport : conn.tuple.dst_port = 53)
    (hproto : conn.tuple.ipproto = IPPROTO_UDP)
    (hsock : conn.sock = some s)
    (hstatus : conn.status = CONN_STATUS_CONNECTED)
    (hlen : DNS_PACKET_SIZE ≤ l4_len)
    (hflags : dns_flags &&& DNS_FLAGS_MASK = DNS_TYPE_RESPONSE)
    (hsocks : 1 ≤ tun.num_open_socks) :
    (∃ uh ip, (handle_udp_reply tun conn (udp_recv_result.bytes l4_len dns_flags) now).pkts
        = [{ ip := ip, l4 := l4_out.udp uh l4_len }]) ∧
    (handle_udp_reply tun conn (udp_recv_result.bytes l4_len dns_flags) now).conn.status
        = CONN_STATUS_CLOSED ∧
    (handle_udp_reply tun conn (udp_recv_result.bytes l4_len dns_flags) now).tun.num_open_socks + 1
        = tun.num_open_socks ∧
    ∀ (t2 : zdtun) (n2 : Nat),
      (zdtun_purge_expired { t2 with conn_table :=
        [(handle_udp_reply tun conn (udp_recv_result.bytes l4_len dns_flags) now).conn] }
        n2).conn_table = [] := by
  have hl : ¬ (l4_len < DNS_PACKET_SIZE ∨ conn.tuple.dst_port ≠ 53) := by
    simp [hport]
    omega
  simp only [handle_udp_reply, check_dns_purge, close_conn, finalize_zdtun_sock, hl,
    hflags, hsock, hstatus, hproto, IPPROTO_TCP, IPPROTO_UDP, reduceCtorEq, reduceIte,
    ne_eq, not_false_eq_true, not_true_eq_false, if_true, if_false]
  norm_num
  refine ⟨by omega, fun t2 n2 => purge_single_closed t2 n2 _ rfl⟩

/-- C7 witness: the DNS eager-purge theorem applied to a concrete UDP
connection to 8.8.8.8:53 receiving a 20-byte reply with flags 0x8180. -/
theorem C7_dns_eager_purge_witness :
    (∃ uh ip, (handle_udp_reply tun_c7_test conn_c7_test
        (udp_recv_result.bytes 20 0x8180) 5).pkts
        = [{ ip := ip, l4 := l4_out.udp uh 20 }]) ∧
    (handle_udp_reply tun_c7_test conn_c7_test
        (udp_recv_result.bytes 20 0x8180) 5).conn.status = CONN_STATUS_CLOSED ∧
    (handle_udp_reply tun_c7_test conn_c7_test
        (udp_recv_result.bytes 20 0x8180) 5).tun.num_open_socks + 1
        = tun_c7_test.num_open_socks ∧
    ∀ (t2 : zdtun) (n2 : Nat),
      (zdtun_purge_expired { t2 with conn_table :=
        [(handle_udp_reply tun_c7_test conn_c7_test
            (udp_recv_result.bytes 20 0x8180) 5).conn] } n2).conn_table = [] :=
  C7_dns_eager_purge tun_c7_test conn_c7_test 8 20 0x8180 5 rfl rfl rfl rfl (by decide)
    (by decide) (by decide)

/-- C8: in every state reachable by engine operations, a CLOSED connection
has the sentinel socket (the OS socket was released by `close_conn`); and
`zdtun_forward_full` on a CLOSED record returns immediately with success,
emitting no packet and changing neither the engine nor the connection. -/
theorem C8_closed_socket_invariant :
    (∀ s : zdtun × zdtun_conn, zdtun_reachable s →
      s.2.status = CONN_STATUS_CLOSED → s.2.sock = none) ∧
    (∀ (tun : zdtun) (pkt : zdtun_pkt) (conn : zdtun_conn) (no_ack : Bool) (env : fwd_env),
      conn.status = CONN_STATUS_CLOSED →
      zdtun_forward_full tun pkt conn no_ack env = ⟨tun, conn, [], 0⟩) := by
  refine ⟨?_, ?_⟩
  · intro s hs h
    exact (conn_inv_reachable hs).1 h
  · intro tun pkt conn no_ack env h
    rw [zdtun_forward_full, if_pos h]

/-- C8 witness: the invariant at the state reached by closing a fresh
connection (its status is CLOSED and its socket the sentinel), and the
forward refusal on a concrete CLOSED record. -/
theorem C8_closed_socket_invariant_witness :
    ((close_conn test_tun (new_zdtun_conn tuple_tcp_test 0)).1,
      (close_conn test_tun (new_zdtun_conn tuple_tcp_test 0)).2.1).2.sock = none ∧
    zdtun_forward_full test_tun pkt_c1_test conn_closed_test false
        { sock_ok := true, new_sock := 3, cres := connect_result.sync_ok,
          send_ok := true, now := 9 }
      = ⟨test_tun, conn_closed_test, [], 0⟩ :=
  ⟨C8_closed_socket_invariant.1 _ ⟨test_tun, tuple_tcp_test, 0,
      Relation.ReflTransGen.single (zdtun_step.close test_tun (new_zdtun_conn tuple_tcp_test 0))⟩
      rfl,
   C8_closed_socket_invariant.2 test_tun pkt_c1_test conn_closed_test false _ rfl⟩

/-- C9: every synthesized IPv4 header has version 4, IHL 5, the
don't-fragment flag (0x4000), TTL 64 and identification 0, carries the
given protocol and addresses; the TCP builder and the UDP reply path set
total length to the L4 length plus 20, swap source/destination relative to
the client packet (source = tuple's destination address), and store a
checksum computed over the header with its checksum field zeroed. -/
theorem C9_ip_header_synthesis :
    (∀ tot_len l3_proto srcip dstip : Nat,
      (build_ip_header_raw tot_len l3_proto srcip dstip).version = 4 ∧
      (build_ip_header_raw tot_len l3_proto srcip dstip).ihl = 5 ∧
      (build_ip_header_raw tot_len l3_proto srcip dstip).frag_off = 0x4000 ∧
      (build_ip_header_raw tot_len l3_proto srcip dstip).ttl = 64 ∧
      (build_ip_header_raw tot_len l3_proto srcip dstip).ident = 0 ∧
      (build_ip_header_raw tot_len l3_proto srcip dstip).protocol = l3_proto ∧
      (build_ip_header_raw tot_len l3_proto srcip dstip).saddr = srcip ∧
      (build_ip_header_raw tot_len l3_proto srcip dstip).daddr = dstip) ∧
    (∀ (tun : zdtun) (conn : zdtun_conn) (flags l4_len : Nat) (payload : List Nat),
      l4_len + MIN_TCP_HEADER_LEN + ZDTUN_IP_HEADER_SIZE ≤ 65535 →
      (build_tcp_ip_header tun conn flags l4_len payload).1.version = 4 ∧
      (build_tcp_ip_header tun conn flags l4_len payload).1.ihl = 5 ∧
      (build_tcp_ip_header tun conn flags l4_len payload).1.frag_off = 0x4000 ∧
      (build_tcp_ip_header tun conn flags l4_len payload).1.ttl = 64 ∧
      (build_tcp_ip_header tun conn flags l4_len payload).1.ident = 0 ∧
      (build_tcp_ip_header tun conn flags l4_len payload).1.protocol = IPPROTO_TCP ∧
      (build_tcp_ip_header tun conn flags l4_len payload).1.tot_len
        = (l4_len + MIN_TCP_HEADER_LEN) + ZDTUN_IP_HEADER_SIZE ∧
      (build_tcp_ip_header tun conn flags l4_len payload).1.saddr = conn.tuple.dst_ip ∧
      (build_tcp_ip_header tun conn flags l4_len payload).1.daddr = conn.tuple.src_ip ∧
      (build_tcp_ip_header tun conn flags l4_len payload).1.check
        = ip_checksum { (build_tcp_ip_header tun conn flags l4_len payload).1 with
            check := 0 }) ∧
    (∀ (tun : zdtun) (conn : zdtun_conn) (l4_len dns_flags now : Nat),
      l4_len + UDP_HEADER_LEN + ZDTUN_IP_HEADER_SIZE ≤ 65535 →
      ∃ uh rest ip,
        (handle_udp_reply tun conn (udp_recv_result.bytes l4_len dns_flags) now).pkts
          = { ip := ip, l4 := l4_out.udp uh l4_len } :: rest ∧
        ip.version = 4 ∧ ip.ihl = 5 ∧ ip.frag_off = 0x4000 ∧ ip.ttl = 64 ∧ ip.ident = 0 ∧
        ip.protocol = IPPROTO_UDP ∧
        ip.tot_len = (l4_len + UDP_HEADER_LEN) + ZDTUN_IP_HEADER_SIZE ∧
        ip.saddr = conn.tuple.dst_ip ∧ ip.daddr = conn.tuple.src_ip ∧
        ip.check = ip_checksum { ip with check := 0 }) := by
  refine ⟨?_, ?_, ?_⟩
  · intro tot_len l3_proto srcip dstip
    exact ⟨rfl, rfl, rfl, rfl, rfl, rfl, rfl, rfl⟩
  · intro tun conn flags l4_len payload hlen
    unfold build_tcp_ip_header build_ip_header_raw
    dsimp only
    refine ⟨rfl, rfl, rfl, rfl, rfl, rfl, ?_, rfl, rfl, rfl⟩
    unfold mod16 MIN_TCP_HEADER_LEN ZDTUN_IP_HEADER_SIZE
    unfold MIN_TCP_HEADER_LEN ZDTUN_IP_HEADER_SIZE at hlen
    omega
  · intro tun conn l4_len dns_flags now hlen
    unfold handle_udp_reply build_ip_header_raw
    dsimp only
    refine ⟨_, _, _, rfl, rfl, rfl, rfl, rfl, rfl, rfl, ?_, rfl, rfl, rfl⟩
    show mod16 (l4_len + UDP_HEADER_LEN + ZDTUN_IP_HEADER_SIZE)
        = l4_len + UDP_HEADER_LEN + ZDTUN_IP_HEADER_SIZE
    unfold mod16 UDP_HEADER_LEN ZDTUN_IP_HEADER_SIZE
    unfold UDP_HEADER_LEN ZDTUN_IP_HEADER_SIZE at hlen
    omega

/-- C9 witness: the header-synthesis theorem evaluated on concrete raw,
TCP-builder and UDP-reply headers. -/
theorem C9_ip_header_synthesis_witness :
    ((build_ip_header_raw 40 IPPROTO_TCP 1 2).version = 4 ∧
     (build_ip_header_raw 40 IPPROTO_TCP 1 2).ihl = 5 ∧
     (build_ip_header_raw 40 IPPROTO_TCP 1 2).frag_off = 0x4000 ∧
     (build_ip_header_raw 40 IPPROTO_TCP 1 2).ttl = 64 ∧
     (build_ip_header_raw 40 IPPROTO_TCP 1 2).ident = 0 ∧
     (build_ip_header_raw 40 IPPROTO_TCP 1 2).protocol = IPPROTO_TCP ∧
     (build_ip_header_raw 40 IPPROTO_TCP 1 2).saddr = 1 ∧
     (build_ip_header_raw 40 IPPROTO_TCP 1 2).daddr = 2) ∧
    ((build_tcp_ip_header test_tun conn_c2_test TH_ACK 0 []).1.tot_len
        = (0 + MIN_TCP_HEADER_LEN) + ZDTUN_IP_HEADER_SIZE ∧
     (build_tcp_ip_header test_tun conn_c2_test TH_ACK 0 []).1.saddr
        = conn_c2_test.tuple.dst_ip ∧
     (build_tcp_ip_header test_tun conn_c2_test TH_ACK 0 []).1.daddr
        = conn_c2_test.tuple.src_ip ∧
     (build_tcp_ip_header test_tun conn_c2_test TH_ACK 0 []).1.check
        = ip_checksum { (build_tcp_ip_header test_tun conn_c2_test TH_ACK 0 []).1 with
            check := 0 }) ∧
    (∃ uh rest ip,
      (handle_udp_reply tun_c7_test conn_c7_test (udp_recv_result.bytes 20 0x8180) 5).pkts
        = { ip := ip, l4 := l4_out.udp uh 20 } :: rest ∧
      ip.version = 4 ∧ ip.ihl = 5 ∧ ip.frag_off = 0x4000 ∧ ip.ttl = 64 ∧ ip.ident = 0 ∧
      ip.protocol = IPPROTO_UDP ∧
      ip.tot_len = (20 + UDP_HEADER_LEN) + ZDTUN_IP_HEADER_SIZE ∧
      ip.saddr = conn_c7_test.tuple.dst_ip ∧ ip.daddr = conn_c7_test.tuple.src_ip ∧
      ip.check = ip_checksum { ip with check := 0 }) := by
  have h2 := C9_ip_header_synthesis.2.1 test_tun conn_c2_test TH_ACK 0 [] (by decide)
  exact ⟨C9_ip_header_synthesis.1 40 IPPROTO_TCP 1 2,
    ⟨h2.2.2.2.2.2.2.1, h2.2.2.2.2.2.2.2.1, h2.2.2.2.2.2.2.2.2.1, h2.2.2.2.2.2.2.2.2.2⟩,
    C9_ip_header_synthesis.2.2 tun_c7_test conn_c7_test 20 0x8180 5 (by decide)⟩

/-- C10: `zdtun_easy_forward` creates a connection for a parsed TCP packet
only when it is an initial SYN (SYN set, ACK clear): for every parsed TCP
packet that is not an initial SYN and whose tuple is absent from the table,
it returns none and the engine - table, active-connection counter and
open-socket counter included - is unchanged; for non-TCP packets the
`is_tcp_established` guard is always false, so creation is always
allowed. -/
theorem C10_easy_forward_creation :
    (∀ (tun : zdtun) (raw : raw_pkt) (env : fwd_env) (accept_conn : Bool) (pkt : zdtun_pkt),
      zdtun_parse_pkt raw = .ok pkt →
      pkt.tuple.ipproto = IPPROTO_TCP →
      (pkt.th_flags &&& TH_SYN = 0 ∨ pkt.th_flags &&& TH_ACK ≠ 0) →
      tun.conn_table.find? (fun c => c.tuple == pkt.tuple) = none →
      zdtun_easy_forward tun raw env accept_conn = (tun, none)) ∧
    (∀ pkt : zdtun_pkt, pkt.tuple.ipproto ≠ IPPROTO_TCP →
      is_tcp_established_pkt pkt = false) := by
  refine ⟨?_, ?_⟩
  · intro tun raw env accept_conn pkt hparse hproto hflags hfind
    have hest : is_tcp_established_pkt pkt = true :=
      decide_eq_true ⟨hproto, hflags⟩
    unfold zdtun_easy_forward
    rw [hparse]
    simp only [zdtun_lookup, hfind, hest, Bool.not_true, if_false, reduceIte,
      Bool.false_eq_true]
  · intro pkt h
    unfold is_tcp_established_pkt
    exact decide_eq_false (fun hx => h hx.1)

/-- C10 witness: an established-connection ACK toward an empty table leaves
the engine untouched, and a UDP packet never counts as established TCP. -/
theorem C10_easy_forward_creation_witness :
    zdtun_easy_forward test_tun raw_c10_ack
        { sock_ok := true, new_sock := 3, cres := connect_result.sync_ok,
          send_ok := true, now := 9 } true
      = (test_tun, none) ∧
    is_tcp_established_pkt pkt_c10_udp = false :=
  ⟨C10_easy_forward_creation.1 test_tun raw_c10_ack _ true pkt_c10_ack rfl rfl
      (Or.inl (by decide)) rfl,
   C10_easy_forward_creation.2 pkt_c10_udp (by decide)⟩
